import Mathlib

/-!
Verification model of the OneSearch manufacturing MCP repository.

The repository has two source files:
* `src/server.py` — read-only analytical SQL query endpoints over SQLite,
  with pydantic filter models and a SELECT-only passthrough endpoint;
* `src/seed_db.py` — schema creation (`CREATE TABLE IF NOT EXISTS`) and
  data population (`INSERT OR IGNORE`) with pseudo-random draws.

The database is shallowly embedded as lists of row records (one structure
per table).  SQL queries are embedded as list programs: inner joins via
`List.find?` on the referenced primary key (sound because the referenced
columns are `INTEGER PRIMARY KEY`, so SQLite guarantees at most one match),
`WHERE` via `List.filter`, `GROUP BY` via key deduplication, `ORDER BY` via
`List.insertionSort` (SQLite fixes the order only up to ties of the sort
key; insertion sort picks one sorted permutation), `LIMIT` via `List.take`.
`TEXT` dates are embedded as `Int` day numbers relative to the seed's "now"
(the `julianday` difference of two date strings is exactly the day
difference), `REAL` as `Rat`, `INTEGER` as `Int`, nullable columns whose
NULL is semantically meaningful as `Option`.
-/

namespace Mfg

/-! ## Table row types (schema of `src/seed_db.py`) -/

structure Factory where
  id : Int
  name : String
  location : String
  country : String
  established_year : Int
  total_area_sqm : Rat
  active : Int
  deriving DecidableEq

structure ProductionLine where
  id : Int
  factory_id : Int
  name : String
  product_type : String
  capacity_units_per_day : Int
  active : Int
  deriving DecidableEq

structure Machine where
  id : Int
  production_line_id : Int
  name : String
  model : String
  manufacturer : String
  installed_date : String
  last_maintenance_date : String
  status : String
  age_years : Rat
  cumulative_downtime_hours : Rat
  deriving DecidableEq

structure Employee where
  id : Int
  name : String
  role : String
  factory_id : Int
  shift : String
  hire_date : Int
  active : Int
  deriving DecidableEq

structure Supplier where
  id : Int
  name : String
  country : String
  contact_email : String
  lead_time_days : Int
  reliability_score : Rat
  deriving DecidableEq

structure Part where
  id : Int
  name : String
  sku : String
  category : String
  unit_cost : Rat
  stock_quantity : Int
  reorder_threshold : Int
  supplier_id : Int
  deriving DecidableEq

structure PurchaseOrder where
  id : Int
  supplier_id : Int
  part_id : Int
  quantity : Int
  unit_price : Rat
  order_date : Int
  expected_delivery : Option Int
  actual_delivery : Option Int
  status : String
  deriving DecidableEq

structure WorkOrder where
  id : Int
  production_line_id : Int
  operator_id : Int
  product_name : String
  quantity_target : Int
  quantity_produced : Int
  start_date : Option Int
  end_date : Option Int
  status : String
  priority : String
  deriving DecidableEq

structure WorkOrderPart where
  id : Int
  work_order_id : Int
  part_id : Int
  quantity_required : Int
  quantity_used : Int
  deriving DecidableEq

structure QualityInspection where
  id : Int
  work_order_id : Int
  inspector_id : Int
  inspection_date : Int
  result : String
  defect_type : Option String
  defect_count : Int
  notes : Option String
  deriving DecidableEq

structure MaintenanceLog where
  id : Int
  machine_id : Int
  technician_id : Int
  maintenance_date : Int
  maintenance_type : String
  downtime_hours : Rat
  cost : Rat
  description : String
  resolved : Int
  deriving DecidableEq

/-- A database state: the eleven tables. -/
structure DB where
  factories : List Factory
  production_lines : List ProductionLine
  machines : List Machine
  employees : List Employee
  suppliers : List Supplier
  parts : List Part
  purchase_orders : List PurchaseOrder
  work_orders : List WorkOrder
  work_order_parts : List WorkOrderPart
  quality_inspections : List QualityInspection
  maintenance_logs : List MaintenanceLog
  deriving DecidableEq

def emptyDB : DB :=
  ⟨[], [], [], [], [], [], [], [], [], [], []⟩

/-! ## Helpers shared by the query embeddings -/

/-- Python truthiness test `if params.x:` on an optional string filter,
combined with the appended `AND col = ?` predicate: `None` and the empty
string append no predicate. -/
def strFilter (o : Option String) (v : String) : Bool :=
  match o with
  | none => true
  | some s => if s = "" then true else v == s

/-- Python truthiness test `if params.x:` on an optional integer filter,
combined with the appended `AND col = ?` predicate: `None` and `0` append
no predicate. -/
def intFilter (o : Option Int) (v : Int) : Bool :=
  match o with
  | none => true
  | some n => if n = 0 then true else v == n

/-! Rational arithmetic is embedded through `mkRat` and the `num`/`den`
projections, which the kernel evaluates on closed terms (the library's
arithmetic on `Rat` does not reduce there); `qMul_eq` and `qDiv_eq` bridge
to the library operations for symbolic reasoning.  Decimal literals are
written `mkRat n d`. -/

def qMul (a b : Rat) : Rat :=
  mkRat (a.num * b.num) (a.den * b.den)

def qAdd (a b : Rat) : Rat :=
  mkRat (a.num * b.den + b.num * a.den) (a.den * b.den)

def qNeg (a : Rat) : Rat :=
  mkRat (-a.num) a.den

def qDiv (a b : Rat) : Rat :=
  if 0 ≤ b.num then mkRat (a.num * (b.den : Int)) (a.den * b.num.toNat)
  else mkRat (-(a.num * (b.den : Int))) (a.den * (-b.num).toNat)

def qLeB (a b : Rat) : Bool :=
  decide (a.num * (b.den : Int) ≤ b.num * (a.den : Int))

theorem qMul_eq (a b : Rat) : qMul a b = a * b := by
  rw [qMul, Rat.mkRat_eq_div]
  push_cast
  rw [← div_mul_div_comm, Rat.num_div_den, Rat.num_div_den]

theorem qDiv_eq (a b : Rat) : qDiv a b = a / b := by
  by_cases hb : b = 0
  · subst hb
    rw [div_zero, qDiv]
    norm_num
  · have hben : b.num ≠ 0 := fun h0 => hb (Rat.num_eq_zero.mp h0)
    have had : ((a.den : Rat)) ≠ 0 := by positivity
    have hbd : ((b.den : Rat)) ≠ 0 := by positivity
    have hbn : ((b.num : Rat)) ≠ 0 := by exact_mod_cast hben
    rw [qDiv]
    rcases lt_or_gt_of_ne hben with h | h
    · have ht : (((-b.num).toNat : Nat) : Rat) = ((-b.num : Int) : Rat) := by
        exact_mod_cast congrArg (fun z => ((z : Int) : Rat))
          (Int.toNat_of_nonneg (show (0:Int) ≤ -b.num by omega))
      rw [if_neg (by omega), Rat.mkRat_eq_div]
      push_cast [ht]
      conv_rhs => rw [← Rat.num_div_den a, ← Rat.num_div_den b]
      field_simp
    · have ht : ((b.num.toNat : Nat) : Rat) = ((b.num : Int) : Rat) := by
        exact_mod_cast congrArg (fun z => ((z : Int) : Rat))
          (Int.toNat_of_nonneg (show (0:Int) ≤ b.num by omega))
      rw [if_pos (by omega), Rat.mkRat_eq_div]
      push_cast [ht]
      conv_rhs => rw [← Rat.num_div_den a, ← Rat.num_div_den b]
      field_simp

/-- Floor of a nonnegative rational (integer T-division of numerator by
denominator, which is the floor when the numerator is nonnegative). -/
def nnFloorRat (q : Rat) : Int :=
  q.num / (q.den : Int)

/-- Round to the nearest integer, halves away from zero — the rounding of
SQLite's `ROUND`. -/
def roundAwayFromZero (q : Rat) : Int :=
  if q.num < 0 then - nnFloorRat (qAdd (qNeg q) (mkRat 1 2))
  else nnFloorRat (qAdd q (mkRat 1 2))

/-- SQLite `ROUND(x, 1)`. -/
def round1 (q : Rat) : Rat :=
  mkRat (roundAwayFromZero (qMul 10 q)) 10

/-! ## `inventory_status` (src/server.py:284-307) -/

structure InvRow where
  id : Int
  name : String
  sku : String
  category : String
  stock_quantity : Int
  reorder_threshold : Int
  stock_status : String
  unit_cost : Rat
  supplier : String
  lead_time_days : Int
  reliability_score : Rat
  open_purchase_orders : Nat
  deriving DecidableEq

/-- One output row of `inventory_status` for a part `p` joined with its
supplier `s`: the `CASE WHEN p.stock_quantity < p.reorder_threshold` flag
and the `COUNT(po.id)` of purchase orders left-joined with
`po.status IN ('pending','shipped')`. -/
def inventoryRow (db : DB) (p : Part) (s : Supplier) : InvRow :=
  { id := p.id
    name := p.name
    sku := p.sku
    category := p.category
    stock_quantity := p.stock_quantity
    reorder_threshold := p.reorder_threshold
    stock_status :=
      if p.stock_quantity < p.reorder_threshold then "LOW STOCK" else "OK"
    unit_cost := p.unit_cost
    supplier := s.name
    lead_time_days := s.lead_time_days
    reliability_score := s.reliability_score
    open_purchase_orders :=
      (db.purchase_orders.filter (fun po =>
        po.part_id == p.id && (po.status == "pending" || po.status == "shipped"))).length }

/-- Lexicographic order on code points — SQLite's BINARY collation on
TEXT values (identical to byte order on the ASCII values compared here). -/
def charListLtB : List Char → List Char → Bool
  | [], [] => false
  | [], _ :: _ => true
  | _ :: _, [] => false
  | a :: as, b :: bs =>
    if a.toNat < b.toNat then true
    else if b.toNat < a.toNat then false
    else charListLtB as bs

def strLtB (a b : String) : Bool :=
  charListLtB a.data b.data

def strLeB (a b : String) : Bool :=
  a == b || strLtB a b

theorem charListLtB_trans (as bs cs : List Char)
    (h1 : charListLtB as bs = true) (h2 : charListLtB bs cs = true) :
    charListLtB as cs = true := by
  induction as generalizing bs cs with
  | nil =>
    cases bs with
    | nil => exact absurd h1 (by simp [charListLtB])
    | cons b bs =>
      cases cs with
      | nil => exact absurd h2 (by simp [charListLtB])
      | cons c cs => simp [charListLtB]
  | cons a as ih =>
    cases bs with
    | nil => exact absurd h1 (by simp [charListLtB])
    | cons b bs =>
      cases cs with
      | nil => exact absurd h2 (by simp [charListLtB])
      | cons c cs =>
        rw [charListLtB] at h1 h2 ⊢
        by_cases hab : a.toNat < b.toNat
        · by_cases hbc : b.toNat < c.toNat
          · rw [if_pos (by omega)]
          · rw [if_neg hbc] at h2
            by_cases hcb : c.toNat < b.toNat
            · rw [if_pos hcb] at h2
              exact absurd h2 (by simp)
            · rw [if_pos (by omega)]
        · rw [if_neg hab] at h1
          by_cases hba : b.toNat < a.toNat
          · rw [if_pos hba] at h1
            exact absurd h1 (by simp)
          · rw [if_neg hba] at h1
            by_cases hbc : b.toNat < c.toNat
            · rw [if_pos (by omega)]
            · rw [if_neg hbc] at h2
              by_cases hcb : c.toNat < b.toNat
              · rw [if_pos hcb] at h2
                exact absurd h2 (by simp)
              · rw [if_neg hcb] at h2
                rw [if_neg (by omega), if_neg (by omega)]
                exact ih bs cs h1 h2

theorem charListLtB_connex (as bs : List Char)
    (h1 : charListLtB as bs = false) (h2 : charListLtB bs as = false) :
    as = bs := by
  induction as generalizing bs with
  | nil =>
    cases bs with
    | nil => rfl
    | cons b bs => exact absurd h1 (by simp [charListLtB])
  | cons a as ih =>
    cases bs with
    | nil => exact absurd h2 (by simp [charListLtB])
    | cons b bs =>
      rw [charListLtB] at h1 h2
      by_cases hab : a.toNat < b.toNat
      · rw [if_pos hab] at h1
        exact absurd h1 (by simp)
      · rw [if_neg hab] at h1
        by_cases hba : b.toNat < a.toNat
        · rw [if_pos hba] at h2
          exact absurd h2 (by simp)
        · rw [if_neg hba] at h1
          rw [if_neg hba, if_neg hab] at h2
          have hc : a = b := Char.ext (UInt32.ext (by
            have e1 : a.toNat = a.val.toNat := rfl
            have e2 : b.toNat = b.val.toNat := rfl
            omega))
          rw [hc, ih bs h1 h2]

theorem strLtB_trans (a b c : String)
    (h1 : strLtB a b = true) (h2 : strLtB b c = true) : strLtB a c = true :=
  charListLtB_trans a.data b.data c.data h1 h2

theorem strLtB_connex (a b : String)
    (h1 : strLtB a b = false) (h2 : strLtB b a = false) : a = b :=
  String.ext (charListLtB_connex a.data b.data h1 h2)

/-- Comparator of `ORDER BY stock_status DESC, p.stock_quantity ASC`:
SQLite compares TEXT with the BINARY collation, i.e. byte-lexicographically
— descending on the status, ascending on the stock quantity. -/
def invLeB (a b : InvRow) : Bool :=
  strLtB b.stock_status a.stock_status ||
    (a.stock_status == b.stock_status && a.stock_quantity ≤ b.stock_quantity)

def invRel (a b : InvRow) : Prop := invLeB a b = true

instance : DecidableRel invRel :=
  fun a b => inferInstanceAs (Decidable (invLeB a b = true))

/-- Output of `inventory_status`: parts inner-joined with their supplier
(`JOIN suppliers s ON s.id = p.supplier_id`), grouped by the part primary
key, ordered by `stock_status DESC, stock_quantity ASC`. -/
def inventoryStatusRows (db : DB) : List InvRow :=
  let base := db.parts.filterMap (fun p =>
    (db.suppliers.find? (fun s => s.id == p.supplier_id)).map (inventoryRow db p))
  List.insertionSort invRel base

/-! ## Input models (src/server.py:37-72)

Each pydantic model has `extra="forbid"`; optional fields default to `None`;
`limit` has default `20` with `ge=1, le=100`. Arguments are embedded as an
association list of keys to scalar JSON values. -/

inductive JVal where
  | jint (n : Int)
  | jstr (s : String)
  deriving DecidableEq

def lookupArg (args : List (String × JVal)) (k : String) : Option JVal :=
  (args.find? (fun kv => kv.1 == k)).map (fun kv => kv.2)

def parseOptIntField (args : List (String × JVal)) (k : String) :
    Except String (Option Int) :=
  match lookupArg args k with
  | none => .ok none
  | some (.jint n) => .ok (some n)
  | some (.jstr _) => .error ("field " ++ k ++ " must be an integer")

def parseOptStrField (args : List (String × JVal)) (k : String) :
    Except String (Option String) :=
  match lookupArg args k with
  | none => .ok none
  | some (.jstr s) => .ok (some s)
  | some (.jint _) => .error ("field " ++ k ++ " must be a string")

/-- `limit: int = Field(20, ge=1, le=100)`. -/
def parseLimitField (args : List (String × JVal)) : Except String Int :=
  match lookupArg args "limit" with
  | none => .ok 20
  | some (.jint n) =>
      if 1 ≤ n ∧ n ≤ 100 then .ok n
      else .error "limit must be between 1 and 100"
  | some (.jstr _) => .error "limit must be an integer"

/-- `extra="forbid"`: the first key outside the declared set, if any. -/
def unknownKey (ks : List String) (args : List (String × JVal)) :
    Option (String × JVal) :=
  args.find? (fun kv => !(ks.contains kv.1))

structure FactoryFilter where
  factory_id : Option Int
  deriving DecidableEq

def FactoryFilter.validate (args : List (String × JVal)) :
    Except String FactoryFilter :=
  match unknownKey ["factory_id"] args with
  | some kv => .error ("unexpected field " ++ kv.1)
  | none => do
      let fid ← parseOptIntField args "factory_id"
      pure ⟨fid⟩

structure MachineFilter where
  status : Option String
  factory_id : Option Int
  deriving DecidableEq

def MachineFilter.validate (args : List (String × JVal)) :
    Except String MachineFilter :=
  match unknownKey ["status", "factory_id"] args with
  | some kv => .error ("unexpected field " ++ kv.1)
  | none => do
      let st ← parseOptStrField args "status"
      let fid ← parseOptIntField args "factory_id"
      pure ⟨st, fid⟩

structure WorkOrderFilter where
  status : Option String
  priority : Option String
  factory_id : Option Int
  limit : Int
  deriving DecidableEq

def WorkOrderFilter.validate (args : List (String × JVal)) :
    Except String WorkOrderFilter :=
  match unknownKey ["status", "priority", "factory_id", "limit"] args with
  | some kv => .error ("unexpected field " ++ kv.1)
  | none => do
      let st ← parseOptStrField args "status"
      let pr ← parseOptStrField args "priority"
      let fid ← parseOptIntField args "factory_id"
      let lim ← parseLimitField args
      pure ⟨st, pr, fid, lim⟩

structure InspectionFilter where
  result : Option String
  factory_id : Option Int
  limit : Int
  deriving DecidableEq

def InspectionFilter.validate (args : List (String × JVal)) :
    Except String InspectionFilter :=
  match unknownKey ["result", "factory_id", "limit"] args with
  | some kv => .error ("unexpected field " ++ kv.1)
  | none => do
      let res ← parseOptStrField args "result"
      let fid ← parseOptIntField args "factory_id"
      let lim ← parseLimitField args
      pure ⟨res, fid, lim⟩

structure MaintenanceFilter where
  machine_id : Option Int
  maintenance_type : Option String
  limit : Int
  deriving DecidableEq

def MaintenanceFilter.validate (args : List (String × JVal)) :
    Except String MaintenanceFilter :=
  match unknownKey ["machine_id", "maintenance_type", "limit"] args with
  | some kv => .error ("unexpected field " ++ kv.1)
  | none => do
      let mid ← parseOptIntField args "machine_id"
      let mt ← parseOptStrField args "maintenance_type"
      let lim ← parseLimitField args
      pure ⟨mid, mt, lim⟩

/-! ## `list_factories` (src/server.py:130-149) -/

structure FactoryCountRow where
  id : Int
  name : String
  location : String
  country : String
  established_year : Int
  total_area_sqm : Rat
  production_lines : Nat
  machines : Nat
  deriving DecidableEq

/-- One output row of `list_factories` for factory `f`:
`COUNT(DISTINCT pl.id)` and `COUNT(DISTINCT m.id)` over the two left
joins. -/
def factoryCountRow (db : DB) (f : Factory) : FactoryCountRow :=
  let pls := db.production_lines.filter (fun pl => pl.factory_id == f.id)
  { id := f.id
    name := f.name
    location := f.location
    country := f.country
    established_year := f.established_year
    total_area_sqm := f.total_area_sqm
    production_lines := ((pls.map (fun pl => pl.id)).dedup).length
    machines :=
      (((db.machines.filter (fun m =>
          pls.any (fun pl => pl.id == m.production_line_id))).map
            (fun m => m.id)).dedup).length }

def facNameLeB (a b : FactoryCountRow) : Bool := strLeB a.name b.name

def facNameRel (a b : FactoryCountRow) : Prop := facNameLeB a b = true

instance : DecidableRel facNameRel :=
  fun a b => inferInstanceAs (Decidable (facNameLeB a b = true))

/-- Output of `list_factories`: `WHERE f.active = 1`, the optional
`AND f.id = ?` (appended only when `factory_id` is truthy), grouped by the
factory primary key, ordered by name. -/
def listFactoriesRows (db : DB) (flt : FactoryFilter) : List FactoryCountRow :=
  let base := db.factories.filter (fun f =>
    f.active == 1 && intFilter flt.factory_id f.id)
  List.insertionSort facNameRel (base.map (factoryCountRow db))

/-! ## `get_machines` (src/server.py:156-179) -/

structure MachineRow where
  id : Int
  name : String
  model : String
  manufacturer : String
  status : String
  age_years : Rat
  cumulative_downtime_hours : Rat
  last_maintenance_date : String
  production_line : String
  factory : String
  factory_id : Int
  deriving DecidableEq

def machineRow (db : DB) (m : Machine) : Option MachineRow :=
  (db.production_lines.find? (fun pl => pl.id == m.production_line_id)).bind fun pl =>
  (db.factories.find? (fun f => f.id == pl.factory_id)).map fun f =>
    { id := m.id
      name := m.name
      model := m.model
      manufacturer := m.manufacturer
      status := m.status
      age_years := m.age_years
      cumulative_downtime_hours := m.cumulative_downtime_hours
      last_maintenance_date := m.last_maintenance_date
      production_line := pl.name
      factory := f.name
      factory_id := f.id }

def machDownLeB (a b : MachineRow) : Bool :=
  qLeB b.cumulative_downtime_hours a.cumulative_downtime_hours

def machDownRel (a b : MachineRow) : Prop := machDownLeB a b = true

instance : DecidableRel machDownRel :=
  fun a b => inferInstanceAs (Decidable (machDownLeB a b = true))

/-- Output of `get_machines`: machines inner-joined to their line and
factory, filtered by the truthy `status` and `factory_id` predicates,
ordered by cumulative downtime descending. -/
def getMachinesRows (db : DB) (flt : MachineFilter) : List MachineRow :=
  let joined := db.machines.filterMap (machineRow db)
  let filtered := joined.filter (fun r =>
    strFilter flt.status r.status && intFilter flt.factory_id r.factory_id)
  List.insertionSort machDownRel filtered

/-! ## `get_work_orders` (src/server.py:186-215) -/

structure WoRow where
  id : Int
  product_name : String
  status : String
  priority : String
  quantity_target : Int
  quantity_produced : Int
  completion_pct : Option Rat
  start_date : Option Int
  end_date : Option Int
  operator : String
  production_line : String
  factory : String
  factory_id : Int
  deriving DecidableEq

/-- `ROUND(100.0 * wo.quantity_produced / wo.quantity_target, 1)`; SQLite
yields NULL when the divisor is zero. -/
def completionPct (produced target : Int) : Option Rat :=
  if target = 0 then none
  else some (round1 (qDiv (qMul 100 ((produced : Int) : Rat)) ((target : Int) : Rat)))

def woRow (db : DB) (wo : WorkOrder) : Option WoRow :=
  (db.employees.find? (fun e => e.id == wo.operator_id)).bind fun e =>
  (db.production_lines.find? (fun pl => pl.id == wo.production_line_id)).bind fun pl =>
  (db.factories.find? (fun f => f.id == pl.factory_id)).map fun f =>
    { id := wo.id
      product_name := wo.product_name
      status := wo.status
      priority := wo.priority
      quantity_target := wo.quantity_target
      quantity_produced := wo.quantity_produced
      completion_pct := completionPct wo.quantity_produced wo.quantity_target
      start_date := wo.start_date
      end_date := wo.end_date
      operator := e.name
      production_line := pl.name
      factory := f.name
      factory_id := f.id }

/-- NULL sorts below every value in SQLite ordering. -/
def optIntLeB (a b : Option Int) : Bool :=
  match a, b with
  | none, _ => true
  | some _, none => false
  | some x, some y => x ≤ y

def woStartLeB (a b : WoRow) : Bool := optIntLeB b.start_date a.start_date

def woStartRel (a b : WoRow) : Prop := woStartLeB a b = true

instance : DecidableRel woStartRel :=
  fun a b => inferInstanceAs (Decidable (woStartLeB a b = true))

/-- Output of `get_work_orders`: work orders inner-joined to operator, line
and factory, filtered by the truthy `status`, `priority` and `factory_id`
predicates, ordered by start date descending, limited. -/
def getWorkOrdersRows (db : DB) (flt : WorkOrderFilter) : List WoRow :=
  let joined := db.work_orders.filterMap (woRow db)
  let filtered := joined.filter (fun r =>
    strFilter flt.status r.status && strFilter flt.priority r.priority &&
      intFilter flt.factory_id r.factory_id)
  (List.insertionSort woStartRel filtered).take flt.limit.toNat

/-! ## `quality_summary` (src/server.py:222-248) -/

structure QIJoined where
  factory : String
  factory_id : Int
  result : String
  defect_type : Option String
  defect_count : Int
  deriving DecidableEq

def qiJoin (db : DB) (qi : QualityInspection) : Option QIJoined :=
  (db.work_orders.find? (fun wo => wo.id == qi.work_order_id)).bind fun wo =>
  (db.production_lines.find? (fun pl => pl.id == wo.production_line_id)).bind fun pl =>
  (db.factories.find? (fun f => f.id == pl.factory_id)).map fun f =>
    { factory := f.name
      factory_id := f.id
      result := qi.result
      defect_type := qi.defect_type
      defect_count := qi.defect_count }

structure QSRow where
  factory : String
  result : String
  count : Nat
  total_defects : Int
  defect_type : Option String
  deriving DecidableEq

def qsDefLeB (a b : QSRow) : Bool := b.total_defects ≤ a.total_defects

def qsDefRel (a b : QSRow) : Prop := qsDefLeB a b = true

instance : DecidableRel qsDefRel :=
  fun a b => inferInstanceAs (Decidable (qsDefLeB a b = true))

/-- Output of `quality_summary`: the four-way join filtered by the truthy
`result` and `factory_id` predicates, grouped by
`f.name, qi.result, qi.defect_type` with `COUNT(*)` and
`SUM(qi.defect_count)`, ordered by total defects descending, limited. -/
def qualitySummaryRows (db : DB) (flt : InspectionFilter) : List QSRow :=
  let joined := (db.quality_inspections.filterMap (qiJoin db)).filter (fun r =>
    strFilter flt.result r.result && intFilter flt.factory_id r.factory_id)
  let keys := (joined.map (fun r => (r.factory, r.result, r.defect_type))).dedup
  let rows := keys.map (fun k =>
    let grp := joined.filter (fun r => (r.factory, r.result, r.defect_type) == k)
    QSRow.mk k.1 k.2.1 grp.length (grp.map (fun r => r.defect_count)).sum k.2.2)
  (List.insertionSort qsDefRel rows).take flt.limit.toNat

/-! ## `maintenance_report` (src/server.py:255-281) -/

structure MaintRow where
  id : Int
  maintenance_date : Int
  maintenance_type : String
  downtime_hours : Rat
  cost : Rat
  description : String
  resolved : Int
  machine : String
  machine_status : String
  machine_id : Int
  factory : String
  technician : String
  deriving DecidableEq

def maintRow (db : DB) (ml : MaintenanceLog) : Option MaintRow :=
  (db.machines.find? (fun m => m.id == ml.machine_id)).bind fun m =>
  (db.production_lines.find? (fun pl => pl.id == m.production_line_id)).bind fun pl =>
  (db.factories.find? (fun f => f.id == pl.factory_id)).bind fun f =>
  (db.employees.find? (fun e => e.id == ml.technician_id)).map fun e =>
    { id := ml.id
      maintenance_date := ml.maintenance_date
      maintenance_type := ml.maintenance_type
      downtime_hours := ml.downtime_hours
      cost := ml.cost
      description := ml.description
      resolved := ml.resolved
      machine := m.name
      machine_status := m.status
      machine_id := ml.machine_id
      factory := f.name
      technician := e.name }

def maintDateLeB (a b : MaintRow) : Bool := b.maintenance_date ≤ a.maintenance_date

def maintDateRel (a b : MaintRow) : Prop := maintDateLeB a b = true

instance : DecidableRel maintDateRel :=
  fun a b => inferInstanceAs (Decidable (maintDateLeB a b = true))

/-- Output of `maintenance_report`: the five-way join filtered by the
truthy `machine_id` and `maintenance_type` predicates, ordered by
maintenance date descending, limited. -/
def maintenanceReportRows (db : DB) (flt : MaintenanceFilter) : List MaintRow :=
  let joined := db.maintenance_logs.filterMap (maintRow db)
  let filtered := joined.filter (fun r =>
    intFilter flt.machine_id r.machine_id &&
      strFilter flt.maintenance_type r.maintenance_type)
  (List.insertionSort maintDateRel filtered).take flt.limit.toNat

/-! ## `supplier_performance` (src/server.py:314-335) -/

structure SupplierRow where
  supplier : String
  country : String
  reliability_score : Rat
  lead_time_days : Int
  total_orders : Nat
  delivered : Nat
  pending : Nat
  cancelled : Nat
  avg_delay_days : Option Rat
  deriving DecidableEq

/-- The `CASE WHEN po.actual_delivery IS NOT NULL AND po.expected_delivery
IS NOT NULL THEN julianday(actual) - julianday(expected) ELSE NULL END`
terms of a supplier's group: the day differences of purchase orders having
both dates present (with no condition on the status). -/
def bothDatesDeltas (db : DB) (s : Supplier) : List Int :=
  (db.purchase_orders.filter (fun po => po.supplier_id == s.id)).filterMap
    (fun po =>
      match po.actual_delivery, po.expected_delivery with
      | some a, some e => some (a - e)
      | _, _ => none)

/-- One output row of `supplier_performance` for supplier `s`:
`ROUND(AVG(...), 1)` — NULL when every term is NULL. -/
def supplierRow (db : DB) (s : Supplier) : SupplierRow :=
  let pos := db.purchase_orders.filter (fun po => po.supplier_id == s.id)
  let deltas := bothDatesDeltas db s
  { supplier := s.name
    country := s.country
    reliability_score := s.reliability_score
    lead_time_days := s.lead_time_days
    total_orders := pos.length
    delivered := pos.countP (fun po => po.status == "delivered")
    pending := pos.countP (fun po => po.status == "pending")
    cancelled := pos.countP (fun po => po.status == "cancelled")
    avg_delay_days :=
      if deltas.isEmpty then none
      else some (round1 (qDiv ((deltas.sum : Int) : Rat) ((deltas.length : Nat) : Rat))) }

def supRelLeB (a b : SupplierRow) : Bool :=
  qLeB b.reliability_score a.reliability_score

def supRelRel (a b : SupplierRow) : Prop := supRelLeB a b = true

instance : DecidableRel supRelRel :=
  fun a b => inferInstanceAs (Decidable (supRelLeB a b = true))

/-- Output of `supplier_performance`: one group per supplier (left join, so
suppliers without purchase orders still appear), ordered by reliability
score descending. -/
def supplierPerformanceRows (db : DB) : List SupplierRow :=
  List.insertionSort supRelRel (db.suppliers.map (supplierRow db))

/-! ## `run_query` (src/server.py:81-97) -/

/-- A scalar value of a passthrough result row. -/
inductive SVal where
  | snull
  | sint (n : Int)
  | sreal (q : Rat)
  | sstr (s : String)
  deriving DecidableEq

/-- A row as `sqlite3.Row` converted to a dict: ordered field-to-value
pairs. -/
def RowV : Type := List (String × SVal)

def renderSVal : SVal → String
  | .snull => "null"
  | .sint n => toString n
  | .sreal q => toString q
  | .sstr s => "\"" ++ s ++ "\""

def renderRowV (r : RowV) : String :=
  "\x7b" ++ String.intercalate ", "
    (r.map (fun kv => "\"" ++ kv.1 ++ "\": " ++ renderSVal kv.2)) ++ "\x7d"

/-- `fmt` (src/server.py:30-33): the fixed sentinel for an empty result,
otherwise a JSON rendering of the rows (`json.dumps`; the whitespace layout
of the rendering is abstracted, its emptiness test is exact). -/
def fmt (rows : List RowV) : String :=
  if rows.isEmpty then "No results found."
  else "[" ++ String.intercalate ", " (rows.map renderRowV) ++ "]"

/-- A character stripped by Python's `str.strip()`. -/
def pyIsSpace (c : Char) : Bool :=
  c == ' ' || c == '\t' || c == '\n' || c == '\r' || c == '\x0b' || c == '\x0c'

/-- Python `str.strip()`. -/
def pyStrip (s : String) : String :=
  String.mk (((s.data.dropWhile pyIsSpace).reverse.dropWhile pyIsSpace).reverse)

/-- Python `str.lower()` on the ASCII range (SQL keywords are ASCII). -/
def asciiLower (c : Char) : Char :=
  if 'A' ≤ c && c ≤ 'Z' then Char.ofNat (c.toNat + 32) else c

def pyLower (s : String) : String :=
  String.mk (s.data.map asciiLower)

/-- Python `str.startswith(pre)`. -/
def pyStartsWith (s pre : String) : Bool :=
  pre.data.isPrefixOf s.data

/-- `run_query`: strips the statement, refuses unless the lower-cased
statement starts with the prefix `select`, otherwise forwards the stripped
statement to the executor and renders any execution error as a textual
`Query error:` result.  The executor (`query_db`) is a parameter: an
exception raised by it is modelled as `Except.error`. -/
def runQuery (exec : String → Except String (List RowV)) (sql : String) : String :=
  let s := pyStrip sql
  if pyStartsWith (pyLower s) "select" then
    match exec s with
    | .ok rows => fmt rows
    | .error e => "Query error: " ++ e
  else "Error: Only SELECT statements are allowed."

/-- The first keyword of a statement: its maximal leading alphabetic run
after trimming (used to state the claim's guard condition). -/
def firstKeyword (sql : String) : String :=
  String.mk ((pyStrip sql).data.takeWhile (fun c => c.isAlpha))

/-! ## Seed generator (src/seed_db.py)

The pseudo-random generator is embedded as a structure of raw draw
streams (`Nat → Nat`, indexed by the loop counter); each bounded draw
`random.randint(lo, hi)` is `lo + raw % (hi - lo + 1)`, each
`random.choice(l)` picks index `raw % l.length`, and each
`random.uniform`/`round` pair is a rational with the same number of decimal
digits in the same closed range.  Dates are day numbers relative to "now":
`random_date(a, b)` is `-(b + raw % (a - b + 1))`. -/

structure SeedChoices where
  eFid : Nat → Nat
  eRole : Nat → Nat
  eShift : Nat → Nat
  eHire : Nat → Nat
  pSup : Nat → Nat
  pPart : Nat → Nat
  pQty : Nat → Nat
  pPrice : Nat → Nat
  pOrd : Nat → Nat
  pExp : Nat → Nat
  pStat : Nat → Nat
  pAdel : Nat → Nat
  wLine : Nat → Nat
  wOp : Nat → Nat
  wTarget : Nat → Nat
  wStat : Nat → Nat
  wProd : Nat → Nat
  wStart : Nat → Nat
  wEnd : Nat → Nat
  wPrio : Nat → Nat
  wProdPick : Nat → Nat
  wopCnt : Nat → Nat
  wopPart : Nat → Nat
  wopReq : Nat → Nat
  wopFlag : Nat → Nat
  wopUsed : Nat → Nat
  qWo : Nat → Nat
  qInsp : Nat → Nat
  qDate : Nat → Nat
  qRes : Nat → Nat
  qDef : Nat → Nat
  qCnt : Nat → Nat
  mMach : Nat → Nat
  mTech : Nat → Nat
  mDate : Nat → Nat
  mType : Nat → Nat
  mDown : Nat → Nat
  mCost : Nat → Nat
  mDesc : Nat → Nat
  mRes : Nat → Nat

/-- `random.choice` on a list of strings. -/
def pick (l : List String) (r : Nat) : String :=
  l.getD (r % l.length) ""

def seedFactories : List Factory :=
  [⟨1, "NordSteel Leipzig", "Leipzig", "Germany", 1987, 45000, 1⟩,
   ⟨2, "PolyFab Milano", "Milan", "Italy", 1995, 32000, 1⟩,
   ⟨3, "AeroTech Toulouse", "Toulouse", "France", 2001, 28000, 1⟩,
   ⟨4, "PrecisionWorks Gdańsk", "Gdańsk", "Poland", 2008, 19000, 1⟩,
   ⟨5, "MetalCore Monterrey", "Monterrey", "Mexico", 2012, 22000, 1⟩]

def seedLines : List ProductionLine :=
  [⟨1, 1, "Steel Casting Line A", "Structural Steel", 800, 1⟩,
   ⟨2, 1, "Steel Casting Line B", "Flat Rolled Steel", 600, 1⟩,
   ⟨3, 1, "Quality Control Line", "Inspection", 1200, 1⟩,
   ⟨4, 2, "Polymer Extrusion Line 1", "PVC Profiles", 500, 1⟩,
   ⟨5, 2, "Polymer Extrusion Line 2", "HDPE Pipes", 400, 1⟩,
   ⟨6, 3, "Fuselage Assembly A", "Aircraft Fuselage", 10, 1⟩,
   ⟨7, 3, "Wing Component Line", "Wing Structures", 8, 1⟩,
   ⟨8, 4, "CNC Machining Center", "Precision Parts", 200, 1⟩,
   ⟨9, 4, "Surface Treatment Line", "Coated Parts", 300, 1⟩,
   ⟨10, 5, "Stamping Press Line", "Metal Stampings", 1000, 1⟩]

def seedMachines : List Machine :=
  [⟨1, 1, "Arc Furnace #1", "EAF-500", "Siemens", "2010-03-15", "2024-10-01", "operational", 14, 120⟩,
   ⟨2, 1, "Continuous Caster A", "CC-3000", "Danieli", "2012-06-20", "2024-11-15", "operational", 12, 80⟩,
   ⟨3, 2, "Rolling Mill X1", "RM-800", "SMS Group", "2015-01-10", "2024-09-20", "operational", mkRat 19 2, 65⟩,
   ⟨4, 2, "Coiling Machine B2", "CM-200", "Primetals", "2018-04-05", "2024-12-01", "operational", mkRat 13 2, 30⟩,
   ⟨5, 3, "Ultrasonic Tester", "UT-Pro X", "Olympus", "2020-07-11", "2025-01-10", "operational", 4, 10⟩,
   ⟨6, 4, "Extruder PE-90", "PE-90L", "Krauss-Maffei", "2014-09-30", "2024-08-01", "maintenance", 10, 200⟩,
   ⟨7, 4, "Haul-Off Unit H4", "HO-400", "Battenfeld", "2017-02-14", "2024-10-15", "operational", mkRat 15 2, 55⟩,
   ⟨8, 5, "Extruder PE-120", "PE-120H", "Krauss-Maffei", "2019-11-25", "2025-01-05", "operational", 5, 25⟩,
   ⟨9, 6, "Riveting Robot RR-1", "RR-700", "KUKA", "2016-05-20", "2024-12-20", "operational", mkRat 17 2, 90⟩,
   ⟨10, 6, "Panel Joining Unit", "PJ-200", "Broetje", "2018-08-01", "2025-01-20", "operational", mkRat 13 2, 45⟩,
   ⟨11, 7, "Spar Drilling Machine", "SDM-5X", "Dornier", "2013-03-10", "2024-07-15", "offline", mkRat 23 2, 350⟩,
   ⟨12, 8, "CNC Lathe L1", "Mazak-QT25", "Mazak", "2021-01-15", "2025-01-25", "operational", 4, 15⟩,
   ⟨13, 8, "5-Axis Mill M3", "DMU-95", "DMG Mori", "2022-06-10", "2025-02-01", "operational", mkRat 5 2, 5⟩,
   ⟨14, 9, "Shot Blast Unit SB2", "SB-600", "Wheelabrator", "2016-10-20", "2024-09-10", "operational", 8, 70⟩,
   ⟨15, 10, "Hydraulic Press P1", "HP-1600T", "Schuler", "2017-07-05", "2024-11-20", "operational", mkRat 15 2, 95⟩,
   ⟨16, 10, "Stamping Die System", "SDS-800", "Trumpf", "2020-03-15", "2025-01-15", "operational", mkRat 9 2, 20⟩]

def seedSuppliers : List Supplier :=
  [⟨1, "ThyssenKrupp Materials", "Germany", "orders@tk-materials.de", 14, mkRat 91 10⟩,
   ⟨2, "SABIC Europe", "Netherlands", "supply@sabic.eu", 21, mkRat 42 5⟩,
   ⟨3, "Hexcel Composites", "USA", "orders@hexcel.com", 28, mkRat 89 10⟩,
   ⟨4, "Fastener World", "China", "sales@fastenerworld.cn", 35, mkRat 31 5⟩,
   ⟨5, "Lubrizol Additives", "USA", "orders@lubrizol.com", 10, mkRat 19 2⟩,
   ⟨6, "Sandvik Tooling", "Sweden", "tools@sandvik.com", 7, mkRat 97 10⟩,
   ⟨7, "IGS Gaskets", "Italy", "info@igsgaskets.it", 18, mkRat 39 5⟩,
   ⟨8, "Nippon Steel Supply", "Japan", "export@nippon-ss.jp", 25, mkRat 43 5⟩]

def seedParts : List Part :=
  [⟨1, "High-Carbon Steel Billet", "SKU-1001", "Raw Material", 480, 320, 100, 1⟩,
   ⟨2, "PVC Resin Grade K67", "SKU-1002", "Raw Material", 120, 180, 80, 2⟩,
   ⟨3, "Carbon Fiber Prepreg", "SKU-1003", "Composite", 950, 45, 20, 3⟩,
   ⟨4, "M12 Hex Bolt (box/100)", "SKU-2001", "Fastener", mkRat 37 2, 850, 200, 4⟩,
   ⟨5, "M8 Lock Nut (box/100)", "SKU-2002", "Fastener", mkRat 46 5, 620, 200, 4⟩,
   ⟨6, "Industrial Lubricant 5L", "SKU-3001", "Consumable", 45, 95, 40, 5⟩,
   ⟨7, "Tungsten Carbide Insert", "SKU-3002", "Tooling", 230, 60, 25, 6⟩,
   ⟨8, "Hydraulic Seal Kit", "SKU-3003", "Maintenance", 88, 35, 30, 7⟩,
   ⟨9, "HDPE Granules 25kg", "SKU-1004", "Raw Material", 85, 260, 80, 2⟩,
   ⟨10, "Aluminum Sheet 2mm", "SKU-1005", "Raw Material", 310, 140, 50, 8⟩,
   ⟨11, "Titanium Fastener Kit", "SKU-2003", "Fastener", 175, 28, 20, 4⟩,
   ⟨12, "Welding Wire ER70S-6", "SKU-3004", "Consumable", 62, 110, 50, 1⟩]

def empRoles : List String :=
  ["Operator", "Senior Operator", "Inspector", "Technician",
   "Shift Supervisor", "Quality Engineer"]

def empShifts : List String := ["morning", "afternoon", "night"]

def empNames : List String :=
  ["Lukas Becker", "Maria Rossi", "Jean Dupont", "Anna Kowalski", "Carlos Mendez",
   "Sophie Laurent", "Piotr Nowak", "Elena Müller", "Ricardo García", "Hana Novak",
   "Thomas Braun", "Isabela Silva", "Marek Wójcik", "Claire Bernard", "Diego Torres",
   "Monika Krol", "Stefan Huber", "Fatima Benali", "Andrei Popescu", "Laura Esposito",
   "Hans Zimmermann", "Katarzyna Dąbrowska", "Miguel Fernández", "Sara Bianchi", "Robert Klein"]

/-- Employee `i` (1-based): factory `randint(1,5)`, a role and shift choice,
hire date `random_date(3000, 365)`, active `1`. -/
def mkEmployee (ch : SeedChoices) (i : Nat) : Employee :=
  { id := (i : Int)
    name := empNames.getD (i - 1) ""
    role := pick empRoles (ch.eRole i)
    factory_id := ((1 + ch.eFid i % 5 : Nat) : Int)
    shift := pick empShifts (ch.eShift i)
    hire_date := -((365 + ch.eHire i % 2636 : Nat) : Int)
    active := 1 }

def genEmployees (ch : SeedChoices) : List Employee :=
  (List.range 25).map (fun k => mkEmployee ch (k + 1))

def poStatusPool : List String :=
  ["pending", "shipped", "delivered", "delivered", "delivered", "cancelled"]

/-- Purchase order `i` (1-based): supplier `randint(1,8)`, part
`randint(1,12)`, quantity `randint(50,500)`, price `round(uniform(10,600),2)`,
order date `random_date(180,10)`, expected delivery `order + randint(7,40)`,
status drawn from the six-element pool, actual delivery
`expected + randint(-3,15)` only when delivered. -/
def mkPurchaseOrder (ch : SeedChoices) (i : Nat) : PurchaseOrder :=
  let ord : Int := -((10 + ch.pOrd i % 171 : Nat) : Int)
  let expd : Int := ord + ((7 + ch.pExp i % 34 : Nat) : Int)
  let status := pick poStatusPool (ch.pStat i)
  { id := (i : Int)
    supplier_id := ((1 + ch.pSup i % 8 : Nat) : Int)
    part_id := ((1 + ch.pPart i % 12 : Nat) : Int)
    quantity := ((50 + ch.pQty i % 451 : Nat) : Int)
    unit_price := mkRat ((1000 + ch.pPrice i % 59001 : Nat) : Int) 100
    order_date := ord
    expected_delivery := some expd
    actual_delivery :=
      if status = "delivered" then
        some (expd + (((ch.pAdel i % 19 : Nat) : Int) - 3))
      else none
    status := status }

def genPurchaseOrders (ch : SeedChoices) : List PurchaseOrder :=
  (List.range 60).map (fun k => mkPurchaseOrder ch (k + 1))

def woProducts : List String :=
  ["HEA 200 Beam", "IPE 300 Beam", "Hot-Rolled Coil", "PVC Window Profile",
   "HDPE Water Pipe 110mm", "Fuselage Panel Section 12", "Wing Rib Assembly",
   "Precision Shaft 40mm", "Brake Disc Housing", "Metal Stamping Bracket A",
   "Stamping Bracket B", "Aircraft Skin Panel"]

/-- `line_product_map`. -/
def lineProductMap : Nat → Option String
  | 1 => some "HEA 200 Beam"
  | 2 => some "Hot-Rolled Coil"
  | 3 => some "HEA 200 Beam"
  | 4 => some "PVC Window Profile"
  | 5 => some "HDPE Water Pipe 110mm"
  | 6 => some "Fuselage Panel Section 12"
  | 7 => some "Wing Rib Assembly"
  | 8 => some "Precision Shaft 40mm"
  | 9 => some "Brake Disc Housing"
  | 10 => some "Metal Stamping Bracket A"
  | _ => none

def woStatusPool : List String :=
  ["planned", "in_progress", "completed", "completed", "completed", "cancelled"]

def woPriorities : List String := ["low", "medium", "high", "critical"]

/-- Work order `i` (1-based): line `randint(1,10)`, operator `randint(1,25)`,
target `randint(50,500)`, status drawn from the six-element pool, produced
equals target when completed, `randint(0,target)` when in progress and `0`
otherwise, start `random_date(200,5)`, end `start + randint(1,14)` only when
completed. -/
def mkWorkOrder (ch : SeedChoices) (i : Nat) : WorkOrder :=
  let line : Nat := 1 + ch.wLine i % 10
  let targetN : Nat := 50 + ch.wTarget i % 451
  let status := pick woStatusPool (ch.wStat i)
  let producedN : Nat :=
    if status = "completed" then targetN
    else if status = "in_progress" then ch.wProd i % (targetN + 1)
    else 0
  let start : Int := -((5 + ch.wStart i % 196 : Nat) : Int)
  { id := (i : Int)
    production_line_id := (line : Int)
    operator_id := ((1 + ch.wOp i % 25 : Nat) : Int)
    product_name := (lineProductMap line).getD (pick woProducts (ch.wProdPick i))
    quantity_target := (targetN : Int)
    quantity_produced := (producedN : Int)
    start_date := some start
    end_date :=
      if status = "completed" then
        some (start + ((1 + ch.wEnd i % 14 : Nat) : Int))
      else none
    status := status
    priority := pick woPriorities (ch.wPrio i) }

def genWorkOrders (ch : SeedChoices) : List WorkOrder :=
  (List.range 200).map (fun k => mkWorkOrder ch (k + 1))

/-- One `work_order_parts` row with global id `wopId` for work order
`woId`: part `randint(1,12)`, required `randint(5,100)`, used equal to
required with probability 0.8 and `randint(0, required)` otherwise. -/
def mkWOP (ch : SeedChoices) (wopId woId : Nat) : WorkOrderPart :=
  let req : Nat := 5 + ch.wopReq wopId % 96
  { id := (wopId : Int)
    work_order_id := (woId : Int)
    part_id := ((1 + ch.wopPart wopId % 12 : Nat) : Int)
    quantity_required := (req : Int)
    quantity_used :=
      if ch.wopFlag wopId % 5 == 0 then ((ch.wopUsed wopId % (req + 1) : Nat) : Int)
      else (req : Int) }

def wopRowsFor (ch : SeedChoices) (woId ctr cnt : Nat) : List WorkOrderPart :=
  (List.range cnt).map (fun k => mkWOP ch (ctr + k) woId)

/-- The inner loop of the `work_order_parts` generation: for each of `rem`
remaining work orders starting at `woId`, `randint(1,3)` rows, with the
global row id counter `ctr` threaded through. -/
def genWOPGo (ch : SeedChoices) : Nat → Nat → Nat → List WorkOrderPart
  | _, _, 0 => []
  | woId, ctr, Nat.succ r =>
    let cnt := 1 + ch.wopCnt woId % 3
    wopRowsFor ch woId ctr cnt ++ genWOPGo ch (woId + 1) (ctr + cnt) r

def genWOP (ch : SeedChoices) : List WorkOrderPart :=
  genWOPGo ch 1 1 200

/-- Total number of `work_order_parts` rows generated for `rem` work orders
starting at `woId`. -/
def wopTotal (ch : SeedChoices) : Nat → Nat → Nat
  | _, 0 => 0
  | woId, Nat.succ r => (1 + ch.wopCnt woId % 3) + wopTotal ch (woId + 1) r

def qiResultPool : List String := ["pass", "fail", "conditional_pass"]

def qiDefectPool : List (Option String) :=
  [some "Dimensional deviation", some "Surface crack", some "Porosity",
   some "Delamination", some "Weld defect", some "Hardness out of spec",
   some "Paint adhesion failure", none, none, none]

/-- Quality inspection `i` (1-based): work order `randint(1,200)`, inspector
`randint(1,25)`, date `random_date(200,1)`, a result choice (the weights
only shape the distribution, not the support), a defect type drawn from the
ten-element pool only when the result is not `pass`, defect count
`randint(1,8)` only when a defect type is present. -/
def mkInspection (ch : SeedChoices) (i : Nat) : QualityInspection :=
  let result := pick qiResultPool (ch.qRes i)
  let defect : Option String :=
    if result = "pass" then none else qiDefectPool.getD (ch.qDef i % 10) none
  { id := (i : Int)
    work_order_id := ((1 + ch.qWo i % 200 : Nat) : Int)
    inspector_id := ((1 + ch.qInsp i % 25 : Nat) : Int)
    inspection_date := -((1 + ch.qDate i % 200 : Nat) : Int)
    result := result
    defect_type := defect
    defect_count :=
      match defect with
      | some _ => ((1 + ch.qCnt i % 8 : Nat) : Int)
      | none => 0
    notes := none }

def genInspections (ch : SeedChoices) : List QualityInspection :=
  (List.range 500).map (fun k => mkInspection ch (k + 1))

def mlTypePool : List String := ["preventive", "corrective", "emergency"]

def mlDescriptions : List String :=
  ["Routine lubrication and belt replacement",
   "Bearing replacement after vibration alert",
   "Emergency shutdown due to overheating, coolant replaced",
   "Calibration and sensor alignment",
   "Hydraulic seal replacement",
   "Conveyor chain replacement",
   "Electrical fault diagnosis and repair",
   "Scheduled annual inspection",
   "Motor winding repair",
   "Control panel firmware update and diagnostics"]

/-- Maintenance log `i` (1-based): machine `randint(1,16)`, technician
`randint(1,25)`, date `random_date(365,1)`, a type choice, downtime drawn
with one decimal from [0.5, 48.0] for emergency and [0.5, 12.0] otherwise,
cost with two decimals from [200, 15000], resolved biased false only for
emergency. -/
def mkMaintLog (ch : SeedChoices) (i : Nat) : MaintenanceLog :=
  let mtype := pick mlTypePool (ch.mType i)
  { id := (i : Int)
    machine_id := ((1 + ch.mMach i % 16 : Nat) : Int)
    technician_id := ((1 + ch.mTech i % 25 : Nat) : Int)
    maintenance_date := -((1 + ch.mDate i % 365 : Nat) : Int)
    maintenance_type := mtype
    downtime_hours :=
      if mtype = "emergency" then mkRat ((5 + ch.mDown i % 476 : Nat) : Int) 10
      else mkRat ((5 + ch.mDown i % 116 : Nat) : Int) 10
    cost := mkRat ((20000 + ch.mCost i % 1480001 : Nat) : Int) 100
    description := pick mlDescriptions (ch.mDesc i)
    resolved := if mtype ≠ "emergency" ∨ ch.mRes i % 10 ≠ 0 then 1 else 0 }

def genMaintLogs (ch : SeedChoices) : List MaintenanceLog :=
  (List.range 150).map (fun k => mkMaintLog ch (k + 1))

/-- `INSERT OR IGNORE` of one row keyed by the integer primary key: the row
is appended only when no row with its key is present. -/
def insertIfAbsent {α : Type} (key : α → Int) (tbl : List α) (r : α) : List α :=
  if tbl.any (fun x => key x == key r) then tbl else tbl ++ [r]

/-- `executemany("INSERT OR IGNORE ...")`. -/
def insertAll {α : Type} (key : α → Int) (tbl rows : List α) : List α :=
  rows.foldl (insertIfAbsent key) tbl

/-- One run of `seed()` against an existing database state: `CREATE TABLE
IF NOT EXISTS` is the identity on the embedded state, then every table
receives its generated rows with `INSERT OR IGNORE`. -/
def seedDB (ch : SeedChoices) (db : DB) : DB :=
  { factories := insertAll Factory.id db.factories seedFactories
    production_lines := insertAll ProductionLine.id db.production_lines seedLines
    machines := insertAll Machine.id db.machines seedMachines
    employees := insertAll Employee.id db.employees (genEmployees ch)
    suppliers := insertAll Supplier.id db.suppliers seedSuppliers
    parts := insertAll Part.id db.parts seedParts
    purchase_orders := insertAll PurchaseOrder.id db.purchase_orders (genPurchaseOrders ch)
    work_orders := insertAll WorkOrder.id db.work_orders (genWorkOrders ch)
    work_order_parts := insertAll WorkOrderPart.id db.work_order_parts (genWOP ch)
    quality_inspections := insertAll QualityInspection.id db.quality_inspections (genInspections ch)
    maintenance_logs := insertAll MaintenanceLog.id db.maintenance_logs (genMaintLogs ch) }

/-- The all-zero draw streams. -/
def chZero : SeedChoices :=
  ⟨fun _ => 0, fun _ => 0, fun _ => 0, fun _ => 0, fun _ => 0, fun _ => 0,
   fun _ => 0, fun _ => 0, fun _ => 0, fun _ => 0, fun _ => 0, fun _ => 0,
   fun _ => 0, fun _ => 0, fun _ => 0, fun _ => 0, fun _ => 0, fun _ => 0,
   fun _ => 0, fun _ => 0, fun _ => 0, fun _ => 0, fun _ => 0, fun _ => 0,
   fun _ => 0, fun _ => 0, fun _ => 0, fun _ => 0, fun _ => 0, fun _ => 0,
   fun _ => 0, fun _ => 0, fun _ => 0, fun _ => 0, fun _ => 0, fun _ => 0,
   fun _ => 0, fun _ => 0, fun _ => 0, fun _ => 0⟩

/-- Draw streams whose purchase-order status pick lands on `delivered`
(pool index 2) with delivery offset draw 4 (one day late). -/
def chDeliv : SeedChoices :=
  { chZero with pStat := fun _ => 2, pAdel := fun _ => 4 }

/-! ## Claim C5 -/

/-- Claim C5: for every work order row produced by the seed generator,
`quantity_produced` equals `quantity_target` when the status is
`completed`, lies in `[0, quantity_target]` when the status is
`in_progress`, and equals `0` when the status is `planned` or
`cancelled`. -/
theorem c5_work_order_quantities (ch : SeedChoices) (i : Nat) :
    ((mkWorkOrder ch i).status = "completed" →
      (mkWorkOrder ch i).quantity_produced = (mkWorkOrder ch i).quantity_target) ∧
    ((mkWorkOrder ch i).status = "in_progress" →
      0 ≤ (mkWorkOrder ch i).quantity_produced ∧
        (mkWorkOrder ch i).quantity_produced ≤ (mkWorkOrder ch i).quantity_target) ∧
    ((mkWorkOrder ch i).status = "planned" ∨ (mkWorkOrder ch i).status = "cancelled" →
      (mkWorkOrder ch i).quantity_produced = 0) := by
  refine ⟨fun h => ?_, fun h => ?_, fun h => ?_⟩
  · simp only [mkWorkOrder] at h ⊢
    rw [if_pos h]
  · simp only [mkWorkOrder] at h ⊢
    have hne : pick woStatusPool (ch.wStat i) ≠ "completed" := by
      rw [h]; decide
    rw [if_neg hne, if_pos h]
    have hlt := Nat.mod_lt (ch.wProd i) (y := 50 + ch.wTarget i % 451 + 1) (by omega)
    constructor
    · positivity
    · have := Nat.cast_le (α := Int) (m := ch.wProd i % (50 + ch.wTarget i % 451 + 1))
        (n := 50 + ch.wTarget i % 451)
      omega
  · have hne1 : (mkWorkOrder ch i).status ≠ "completed" := by
      rcases h with h | h <;> rw [h] <;> decide
    have hne2 : (mkWorkOrder ch i).status ≠ "in_progress" := by
      rcases h with h | h <;> rw [h] <;> decide
    simp only [mkWorkOrder] at hne1 hne2 ⊢
    rw [if_neg hne1, if_neg hne2]
    rfl

/-- Witness for C5 at the all-zero draw streams: the drawn status is
`planned` and the produced quantity is `0`. -/
theorem c5_work_order_quantities_witness :
    (mkWorkOrder chZero 0).status = "planned" ∧
      (mkWorkOrder chZero 0).quantity_produced = 0 :=
  ⟨by decide, (c5_work_order_quantities chZero 0).2.2 (Or.inl (by decide))⟩

/-! ## Claim C6 -/

/-- Claim C6: for every purchase order row produced by the seed generator,
`actual_delivery` is absent when the status is not `delivered`, and when
the status is `delivered` it is present and computed relative to
`expected_delivery` (between 3 days early and 15 days late). -/
theorem c6_purchase_order_delivery (ch : SeedChoices) (i : Nat) :
    ((mkPurchaseOrder ch i).status ≠ "delivered" →
      (mkPurchaseOrder ch i).actual_delivery = none) ∧
    ((mkPurchaseOrder ch i).status = "delivered" →
      ∃ e d, (mkPurchaseOrder ch i).expected_delivery = some e ∧
        (mkPurchaseOrder ch i).actual_delivery = some d ∧
        e - 3 ≤ d ∧ d ≤ e + 15) := by
  constructor
  · intro h
    simp only [mkPurchaseOrder] at h ⊢
    rw [if_neg h]
  · intro h
    simp only [mkPurchaseOrder] at h ⊢
    rw [if_pos h]
    refine ⟨_, _, rfl, rfl, ?_, ?_⟩
    · have hlt := Nat.mod_lt (ch.pAdel i) (y := 19) (by omega)
      omega
    · have hlt := Nat.mod_lt (ch.pAdel i) (y := 19) (by omega)
      omega

/-- Witness for C6: a draw stream whose status pick is `delivered` (pool
index 2) and whose delivery offset draw is `4`, giving an actual delivery
one day late. -/
theorem c6_purchase_order_delivery_witness :
    (mkPurchaseOrder chDeliv 0).status = "delivered" ∧
      ∃ e d, (mkPurchaseOrder chDeliv 0).expected_delivery = some e ∧
        (mkPurchaseOrder chDeliv 0).actual_delivery = some d ∧
        e - 3 ≤ d ∧ d ≤ e + 15 :=
  ⟨by decide, (c6_purchase_order_delivery chDeliv 0).2 (by decide)⟩

def facA : Factory := ⟨1, "Alpha Works", "Linz", "Austria", 2000, 100, 1⟩

def facB : Factory := ⟨2, "Beta Works", "Linz", "Austria", 2001, 100, 0⟩

/-- A database with one active and one inactive factory. -/
def cdb9 : DB := { emptyDB with factories := [facA, facB] }

/-! ## Claim C9 -/

/-- Claim C9: `list_factories` returns only factories whose `active` flag
is `1`, for every filter (in particular the empty one): every output row
stems from a factory with `active = 1`. -/
theorem c9_list_factories_active_only (db : DB) (flt : FactoryFilter)
    (r : FactoryCountRow) (hr : r ∈ listFactoriesRows db flt) :
    ∃ f ∈ db.factories, f.id = r.id ∧ f.active = 1 := by
  simp only [listFactoriesRows] at hr
  have hmem := (List.perm_insertionSort facNameRel _).mem_iff.mp hr
  rw [List.mem_map] at hmem
  obtain ⟨f, hf, hfr⟩ := hmem
  rw [List.mem_filter] at hf
  obtain ⟨hfmem, hp⟩ := hf
  rw [Bool.and_eq_true] at hp
  refine ⟨f, hfmem, ?_, ?_⟩
  · rw [← hfr]; rfl
  · exact beq_iff_eq.mp hp.1

/-- Witness for C9: a two-factory database with one inactive factory; the
single returned row stems from the active one. -/
theorem c9_list_factories_active_only_witness :
    ∃ f ∈ cdb9.factories, f.id = (factoryCountRow cdb9 facA).id ∧ f.active = 1 :=
  c9_list_factories_active_only cdb9 ⟨none⟩ (factoryCountRow cdb9 facA) (by decide)

/-! ## Claim C10 -/

/-- Claim C10: supplying `0` for an optional integer filter (`factory_id`
on `list_factories`, `get_machines`, `get_work_orders`, `quality_summary`;
`machine_id` on `maintenance_report`) appends no predicate — Python
truthiness treats `0` like an absent filter — so the result equals the
result with the filter absent. -/
theorem c10_zero_filter_is_absent (db : DB) (st pr res mt : Option String)
    (lim : Int) :
    listFactoriesRows db ⟨some 0⟩ = listFactoriesRows db ⟨none⟩ ∧
    getMachinesRows db ⟨st, some 0⟩ = getMachinesRows db ⟨st, none⟩ ∧
    getWorkOrdersRows db ⟨st, pr, some 0, lim⟩ = getWorkOrdersRows db ⟨st, pr, none, lim⟩ ∧
    qualitySummaryRows db ⟨res, some 0, lim⟩ = qualitySummaryRows db ⟨res, none, lim⟩ ∧
    maintenanceReportRows db ⟨some 0, mt, lim⟩ = maintenanceReportRows db ⟨none, mt, lim⟩ :=
  ⟨rfl, rfl, rfl, rfl, rfl⟩

/-! ## Claim C2 -/

/-- An executor that fails every statement (the underlying engine raises). -/
def execFail : String → Except String (List RowV) :=
  fun _ => .error "no such column: SELECTED"

/-- An executor that returns an empty result for every statement. -/
def execOk : String → Except String (List RowV) :=
  fun _ => .ok []

/-- Counterexample to claim C2 as stated: the statement `SELECTED 1` has
first keyword `SELECTED`, not `SELECT`, yet `run_query` does not refuse it
— the guard is only a prefix test — and the output depends on the
executor, so the statement is executed. -/
theorem c2_counterexample :
    pyLower (firstKeyword "SELECTED 1") ≠ "select" ∧
      runQuery execFail "SELECTED 1" ≠ "Error: Only SELECT statements are allowed." ∧
      runQuery execFail "SELECTED 1" ≠ runQuery execOk "SELECTED 1" := by
  refine ⟨by decide, by decide, by decide⟩

/-- Claim C2 (amended): `run_query` refuses — uniformly in the executor,
so nothing is executed — unless the trimmed statement starts,
case-insensitively, with the six-character prefix `select` (a prefix test,
not a first-keyword test); when it does, the trimmed statement is forwarded
verbatim to the executor and an execution error is rendered as a textual
`Query error:` result rather than propagated. -/
theorem c2_run_query_guard (exec1 exec2 : String → Except String (List RowV))
    (sql : String) :
    (¬ pyStartsWith (pyLower (pyStrip sql)) "select" = true →
      runQuery exec1 sql = "Error: Only SELECT statements are allowed." ∧
        runQuery exec1 sql = runQuery exec2 sql) ∧
    (pyStartsWith (pyLower (pyStrip sql)) "select" = true →
      runQuery exec1 sql =
        match exec1 (pyStrip sql) with
        | .ok rows => fmt rows
        | .error e => "Query error: " ++ e) := by
  constructor
  · intro h
    simp only [runQuery]
    rw [if_neg h, if_neg h]
    exact ⟨rfl, rfl⟩
  · intro h
    simp only [runQuery]
    rw [if_pos h]

/-- Witness for C2 (amended) at concrete statements: `DROP TABLE factories`
is refused, and a failing `SELECT` is rendered as a textual query error. -/
theorem c2_run_query_guard_witness :
    runQuery execFail "DROP TABLE factories" = "Error: Only SELECT statements are allowed." ∧
      runQuery execFail "SELECT * FROM factories" = "Query error: no such column: SELECTED" := by
  constructor
  · exact ((c2_run_query_guard execFail execOk "DROP TABLE factories").1 (by decide)).1
  · rw [(c2_run_query_guard execFail execOk "SELECT * FROM factories").2 (by decide)]
    rfl

/-! ## Claim C3 -/

/-- The work-order invariant established by the seed generator (claim C5
plus the positive target range `randint(50, 500)`): completed work orders
have `quantity_produced = quantity_target` and a positive target. -/
def WOInvariant (db : DB) : Prop :=
  ∀ wo ∈ db.work_orders, wo.status = "completed" →
    wo.quantity_produced = wo.quantity_target ∧ 0 < wo.quantity_target

instance (db : DB) : Decidable (WOInvariant db) :=
  inferInstanceAs (Decidable (∀ wo ∈ db.work_orders, _ → _ ∧ _))

/-- Claim C3: on every database satisfying the seed's work-order invariant,
`get_work_orders` with filter `status = "completed"` returns only rows with
status `completed`, each with `completion_pct = 100.0`. -/
theorem c3_completed_work_orders (db : DB) (hinv : WOInvariant db) (r : WoRow)
    (hr : r ∈ getWorkOrdersRows db ⟨some "completed", none, none, 20⟩) :
    r.status = "completed" ∧ r.completion_pct = some 100 := by
  simp only [getWorkOrdersRows] at hr
  have hr2 := List.Sublist.mem hr (List.take_sublist _ _)
  have hr3 := (List.perm_insertionSort woStartRel _).mem_iff.mp hr2
  rw [List.mem_filter] at hr3
  obtain ⟨hrj, hpred⟩ := hr3
  simp only [strFilter, intFilter, Bool.and_true] at hpred
  rw [if_neg (by decide : ¬ ("completed" : String) = "")] at hpred
  have hst : r.status = "completed" := by
    have := beq_iff_eq.mp hpred
    exact this
  obtain ⟨wo, hwo, hwor⟩ := List.mem_filterMap.mp hrj
  refine ⟨hst, ?_⟩
  -- Resolve the three joins inside `woRow`.
  simp only [woRow, Option.bind_eq_some, Option.map_eq_some'] at hwor
  obtain ⟨e, hfe, pl, hfp, f, hff, hrow⟩ := hwor
  subst hrow
  have hwost : wo.status = "completed" := hst
  obtain ⟨hpt, htpos⟩ := hinv wo hwo hwost
  show completionPct wo.quantity_produced wo.quantity_target = some 100
  rw [completionPct, if_neg (by omega : ¬ wo.quantity_target = 0), hpt]
  have hne : ((wo.quantity_target : Int) : Rat) ≠ 0 :=
    Int.cast_ne_zero.mpr (by omega)
  rw [qMul_eq, qDiv_eq, mul_div_assoc, div_self hne, mul_one]
  decide

def emp3 : Employee := ⟨1, "Op One", "Operator", 1, "morning", -400, 1⟩

def line3 : ProductionLine := ⟨1, 1, "Line One", "Steel", 100, 1⟩

def wo3 : WorkOrder :=
  ⟨1, 1, 1, "Beam", 100, 100, some (-10), some (-6), "completed", "medium"⟩

/-- A database with a single completed work order satisfying the seed
invariant. -/
def cdb3 : DB :=
  { emptyDB with
      factories := [facA]
      production_lines := [line3]
      employees := [emp3]
      work_orders := [wo3] }

/-- The joined output row of `get_work_orders` on `cdb3`. -/
def row3 : WoRow :=
  ⟨1, "Beam", "completed", "medium", 100, 100, some 100, some (-10), some (-6),
   "Op One", "Line One", "Alpha Works", 1⟩

/-- Witness for C3 at the concrete database `cdb3`. -/
theorem c3_completed_work_orders_witness :
    row3.status = "completed" ∧ row3.completion_pct = some 100 :=
  c3_completed_work_orders cdb3 (by decide) row3 (by decide)

/-! ## Claim C1 -/

instance : IsTotal InvRow invRel where
  total a b := by
    simp only [invRel, invLeB, Bool.or_eq_true, Bool.and_eq_true, beq_iff_eq,
      decide_eq_true_eq]
    by_cases h1 : strLtB b.stock_status a.stock_status = true
    · exact Or.inl (Or.inl h1)
    by_cases h2 : strLtB a.stock_status b.stock_status = true
    · exact Or.inr (Or.inl h2)
    have h1f : strLtB b.stock_status a.stock_status = false := by
      revert h1; cases strLtB b.stock_status a.stock_status <;> simp
    have h2f : strLtB a.stock_status b.stock_status = false := by
      revert h2; cases strLtB a.stock_status b.stock_status <;> simp
    have heq : a.stock_status = b.stock_status := strLtB_connex _ _ h2f h1f
    rcases Int.le_total a.stock_quantity b.stock_quantity with hq | hq
    · exact Or.inl (Or.inr ⟨heq, hq⟩)
    · exact Or.inr (Or.inr ⟨heq.symm, hq⟩)

instance : IsTrans InvRow invRel where
  trans a b c hab hbc := by
    simp only [invRel, invLeB, Bool.or_eq_true, Bool.and_eq_true, beq_iff_eq,
      decide_eq_true_eq] at hab hbc ⊢
    rcases hab with hab | ⟨hab1, hab2⟩
    · rcases hbc with hbc | ⟨hbc1, hbc2⟩
      · exact Or.inl (strLtB_trans _ _ _ hbc hab)
      · exact Or.inl (by rw [← hbc1]; exact hab)
    · rcases hbc with hbc | ⟨hbc1, hbc2⟩
      · exact Or.inl (by rw [hab1]; exact hbc)
      · exact Or.inr ⟨hab1.trans hbc1, le_trans hab2 hbc2⟩

/-- Every output row of `inventory_status` is the joined row of a part and
its supplier. -/
theorem mem_inventoryStatusRows (db : DB) (r : InvRow)
    (hr : r ∈ inventoryStatusRows db) :
    ∃ p ∈ db.parts, ∃ s,
      db.suppliers.find? (fun x => x.id == p.supplier_id) = some s ∧
        r = inventoryRow db p s := by
  simp only [inventoryStatusRows] at hr
  have h2 := (List.perm_insertionSort invRel _).mem_iff.mp hr
  rw [List.mem_filterMap] at h2
  obtain ⟨p, hp, hmap⟩ := h2
  rw [Option.map_eq_some'] at hmap
  obtain ⟨sup, hfind, hrow⟩ := hmap
  exact ⟨p, hp, sup, hfind, hrow.symm⟩

/-- Claim C1 (amended): every `inventory_status` row has
`stock_status = "LOW STOCK"` exactly when `stock_quantity <
reorder_threshold` and `"OK"` otherwise; but `ORDER BY stock_status DESC`
under the BINARY collation puts `'OK'` (lexicographically larger) first, so
it is the OK rows that precede the LOW STOCK rows: once a row is LOW STOCK,
every later row is LOW STOCK. -/
theorem c1_inventory_status (db : DB) :
    (∀ r ∈ inventoryStatusRows db,
      (r.stock_status = "LOW STOCK" ↔ r.stock_quantity < r.reorder_threshold) ∧
      (r.stock_status = "OK" ↔ ¬ r.stock_quantity < r.reorder_threshold)) ∧
    (∀ i j : Nat, i < j → ∀ ra rb : InvRow, (inventoryStatusRows db)[i]? = some ra →
      (inventoryStatusRows db)[j]? = some rb →
      ra.stock_status = "LOW STOCK" → rb.stock_status = "LOW STOCK") := by
  have hflag : ∀ r ∈ inventoryStatusRows db,
      (r.stock_status = "LOW STOCK" ↔ r.stock_quantity < r.reorder_threshold) ∧
      (r.stock_status = "OK" ↔ ¬ r.stock_quantity < r.reorder_threshold) := by
    intro r hr
    obtain ⟨p, hp, s2, hfind, rfl⟩ := mem_inventoryStatusRows db r hr
    show ((if p.stock_quantity < p.reorder_threshold then "LOW STOCK" else "OK") =
        "LOW STOCK" ↔ p.stock_quantity < p.reorder_threshold) ∧
      ((if p.stock_quantity < p.reorder_threshold then "LOW STOCK" else "OK") =
        "OK" ↔ ¬ p.stock_quantity < p.reorder_threshold)
    by_cases hlt : p.stock_quantity < p.reorder_threshold
    · rw [if_pos hlt]
      exact ⟨iff_of_true rfl hlt, iff_of_false (by decide) (not_not_intro hlt)⟩
    · rw [if_neg hlt]
      exact ⟨iff_of_false (by decide) hlt, iff_of_true rfl hlt⟩
  refine ⟨hflag, ?_⟩
  intro i j hij ra rb hra hrb hlow
  have hsorted : List.Sorted invRel (inventoryStatusRows db) := by
    simp only [inventoryStatusRows]
    exact List.sorted_insertionSort invRel _
  obtain ⟨hi, hgi⟩ := List.getElem?_eq_some_iff.mp hra
  obtain ⟨hj, hgj⟩ := List.getElem?_eq_some_iff.mp hrb
  have hrel := List.pairwise_iff_get.mp hsorted ⟨i, hi⟩ ⟨j, hj⟩ (by exact hij)
  rw [List.get_eq_getElem, List.get_eq_getElem, hgi, hgj] at hrel
  have hrbmem : rb ∈ inventoryStatusRows db := by
    rw [← hgj]
    exact List.getElem_mem hj
  have hopts := hflag rb hrbmem
  simp only [invRel, invLeB, Bool.or_eq_true, Bool.and_eq_true, beq_iff_eq,
    decide_eq_true_eq] at hrel
  rcases hrel with h | ⟨h1, _⟩
  · by_cases hq : rb.stock_quantity < rb.reorder_threshold
    · exact (hopts.1).mpr hq
    · have hok : rb.stock_status = "OK" := (hopts.2).mpr hq
      rw [hlow, hok] at h
      exact absurd h (by decide)
  · rw [← h1]
    exact hlow

def supC1 : Supplier := ⟨1, "Sup One", "Germany", "po@sup.de", 10, 5⟩

def pLOWc1 : Part := ⟨1, "Low Part", "SKU-L", "Cat", 10, 1, 10, 1⟩

def pOKc1 : Part := ⟨2, "Ok Part", "SKU-O", "Cat", 10, 100, 10, 1⟩

/-- A database with one part below and one part above its threshold. -/
def cdbC1 : DB := { emptyDB with suppliers := [supC1], parts := [pLOWc1, pOKc1] }

/-- The ordering asserted by claim C1 as stated: no OK row before a LOW
STOCK row. -/
def c1LowFirst (rows : List InvRow) : Prop :=
  ∀ i j : Nat, i < j → ∀ ra rb : InvRow, rows[i]? = some ra → rows[j]? = some rb →
    ¬ (ra.stock_status = "OK" ∧ rb.stock_status = "LOW STOCK")

/-- Counterexample to claim C1 as stated: on `cdbC1` the output of
`inventory_status` places the OK row (position 0) before the LOW STOCK row
(position 1), because `'OK' > 'LOW STOCK'` in the BINARY collation and the
sort is descending. -/
theorem c1_counterexample : ¬ c1LowFirst (inventoryStatusRows cdbC1) := by
  intro h
  exact h 0 1 (by omega) (inventoryRow cdbC1 pOKc1 supC1)
    (inventoryRow cdbC1 pLOWc1 supC1) (by decide) (by decide)
    ⟨by decide, by decide⟩

def pL2c1 : Part := ⟨2, "Low Part B", "SKU-M", "Cat", 10, 2, 10, 1⟩

/-- A database with two parts below their thresholds. -/
def cdbW1 : DB := { emptyDB with suppliers := [supC1], parts := [pLOWc1, pL2c1] }

/-- Witness for C1 (amended) on `cdbW1`: the flag equivalence at the first
row, and the propagation of LOW STOCK from position 0 to position 1. -/
theorem c1_inventory_status_witness :
    ((inventoryRow cdbW1 pLOWc1 supC1).stock_status = "LOW STOCK" ↔
      (inventoryRow cdbW1 pLOWc1 supC1).stock_quantity <
        (inventoryRow cdbW1 pLOWc1 supC1).reorder_threshold) ∧
    (inventoryRow cdbW1 pL2c1 supC1).stock_status = "LOW STOCK" :=
  ⟨((c1_inventory_status cdbW1).1 (inventoryRow cdbW1 pLOWc1 supC1) (by decide)).1,
   (c1_inventory_status cdbW1).2 0 1 (by omega) (inventoryRow cdbW1 pLOWc1 supC1)
     (inventoryRow cdbW1 pL2c1 supC1) (by decide) (by decide) (by decide)⟩

/-! ## Claim C7 -/

/-- A rejected argument object: validation produced an error. -/
def isErr {α : Type} (x : Except String α) : Prop :=
  ∃ m, x = .error m

theorem isErr_bind_all {α β : Type} (x : Except String α)
    (f : α → Except String β) (h : ∀ a, isErr (f a)) : isErr (x >>= f) := by
  cases x with
  | error e => exact ⟨e, rfl⟩
  | ok a => exact h a

theorem exceptBind_ok {α β : Type} (x : Except String α)
    (f : α → Except String β) (b : β) (h : x >>= f = .ok b) :
    ∃ a, x = .ok a ∧ f a = .ok b := by
  cases x with
  | error e => simp [Bind.bind, Except.bind] at h
  | ok a => exact ⟨a, rfl, h⟩

theorem unknownKey_some (ks : List String) (args : List (String × JVal))
    (k : String) (v : JVal) (hmem : (k, v) ∈ args)
    (hk : ks.contains k = false) : ∃ kv, unknownKey ks args = some kv := by
  cases hfind : unknownKey ks args with
  | some kv => exact ⟨kv, rfl⟩
  | none =>
    rw [unknownKey, List.find?_eq_none] at hfind
    have h2 := hfind (k, v) hmem
    simp only [Bool.not_eq_true', Bool.not_eq_false] at h2
    rw [h2] at hk
    exact absurd hk (by simp)

/-- The composed endpoint: pydantic validation, then the query — a
validation failure returns before any query runs. -/
def getWorkOrdersTool (db : DB) (args : List (String × JVal)) :
    Except String (List WoRow) :=
  (WorkOrderFilter.validate args).map (getWorkOrdersRows db)

theorem parseLimit_out_of_range (args : List (String × JVal)) (n : Int)
    (hl : lookupArg args "limit" = some (.jint n)) (hout : n < 1 ∨ 100 < n) :
    parseLimitField args = .error "limit must be between 1 and 100" := by
  simp only [parseLimitField, hl]
  rw [if_neg (by omega)]

/-- Claim C7: each of the five filter models rejects an argument containing
a field outside its declared set; each of the three paginated models
rejects a `limit` outside `[1,100]` and defaults it to `20` when absent;
every other field of every model is optional and parses to `none` when
absent, and an absent field contributes no predicate
(`strFilter`/`intFilter` are vacuous on `none`); an unknown field makes the
composed endpoint fail with a database-independent validation error, so no
query executes. -/
theorem c7_parameter_models :
    (∀ args k v, (k, v) ∈ args →
      (["factory_id"] : List String).contains k = false →
      isErr (FactoryFilter.validate args)) ∧
    (∀ args k v, (k, v) ∈ args →
      (["status", "factory_id"] : List String).contains k = false →
      isErr (MachineFilter.validate args)) ∧
    (∀ args k v, (k, v) ∈ args →
      (["status", "priority", "factory_id", "limit"] : List String).contains k = false →
      isErr (WorkOrderFilter.validate args)) ∧
    (∀ args k v, (k, v) ∈ args →
      (["result", "factory_id", "limit"] : List String).contains k = false →
      isErr (InspectionFilter.validate args)) ∧
    (∀ args k v, (k, v) ∈ args →
      (["machine_id", "maintenance_type", "limit"] : List String).contains k = false →
      isErr (MaintenanceFilter.validate args)) ∧
    (∀ args n, lookupArg args "limit" = some (.jint n) → (n < 1 ∨ 100 < n) →
      isErr (WorkOrderFilter.validate args) ∧
        isErr (InspectionFilter.validate args) ∧
        isErr (MaintenanceFilter.validate args)) ∧
    (∀ args f, WorkOrderFilter.validate args = .ok f →
      (lookupArg args "limit" = none → f.limit = 20) ∧
      (lookupArg args "status" = none → f.status = none) ∧
      (lookupArg args "priority" = none → f.priority = none) ∧
      (lookupArg args "factory_id" = none → f.factory_id = none)) ∧
    (∀ args f, FactoryFilter.validate args = .ok f →
      lookupArg args "factory_id" = none → f.factory_id = none) ∧
    (∀ args f, MachineFilter.validate args = .ok f →
      (lookupArg args "status" = none → f.status = none) ∧
      (lookupArg args "factory_id" = none → f.factory_id = none)) ∧
    (∀ args f, InspectionFilter.validate args = .ok f →
      (lookupArg args "limit" = none → f.limit = 20) ∧
      (lookupArg args "result" = none → f.result = none) ∧
      (lookupArg args "factory_id" = none → f.factory_id = none)) ∧
    (∀ args f, MaintenanceFilter.validate args = .ok f →
      (lookupArg args "limit" = none → f.limit = 20) ∧
      (lookupArg args "machine_id" = none → f.machine_id = none) ∧
      (lookupArg args "maintenance_type" = none → f.maintenance_type = none)) ∧
    (∀ v : String, strFilter none v = true) ∧
    (∀ v : Int, intFilter none v = true) ∧
    (∀ db args k v, (k, v) ∈ args →
      (["status", "priority", "factory_id", "limit"] : List String).contains k = false →
      ∃ m, getWorkOrdersTool db args = .error m ∧
        ∀ db2, getWorkOrdersTool db2 args = .error m) := by
  refine ⟨?_, ?_, ?_, ?_, ?_, ?_, ?_, ?_, ?_, ?_, ?_, fun _ => rfl, fun _ => rfl, ?_⟩
  · intro args k v hmem hk
    obtain ⟨kv, hkv⟩ := unknownKey_some _ _ _ _ hmem hk
    exact ⟨"unexpected field " ++ kv.1, by simp only [FactoryFilter.validate, hkv]⟩
  · intro args k v hmem hk
    obtain ⟨kv, hkv⟩ := unknownKey_some _ _ _ _ hmem hk
    exact ⟨"unexpected field " ++ kv.1, by simp only [MachineFilter.validate, hkv]⟩
  · intro args k v hmem hk
    obtain ⟨kv, hkv⟩ := unknownKey_some _ _ _ _ hmem hk
    exact ⟨"unexpected field " ++ kv.1, by simp only [WorkOrderFilter.validate, hkv]⟩
  · intro args k v hmem hk
    obtain ⟨kv, hkv⟩ := unknownKey_some _ _ _ _ hmem hk
    exact ⟨"unexpected field " ++ kv.1, by simp only [InspectionFilter.validate, hkv]⟩
  · intro args k v hmem hk
    obtain ⟨kv, hkv⟩ := unknownKey_some _ _ _ _ hmem hk
    exact ⟨"unexpected field " ++ kv.1, by simp only [MaintenanceFilter.validate, hkv]⟩
  · intro args n hl hout
    have hlim := parseLimit_out_of_range args n hl hout
    refine ⟨?_, ?_, ?_⟩
    · cases hu : unknownKey ["status", "priority", "factory_id", "limit"] args with
      | some kv => exact ⟨"unexpected field " ++ kv.1, by simp only [WorkOrderFilter.validate, hu]⟩
      | none =>
        simp only [WorkOrderFilter.validate, hu]
        apply isErr_bind_all; intro st
        apply isErr_bind_all; intro pr
        apply isErr_bind_all; intro fid
        rw [hlim]
        exact ⟨_, rfl⟩
    · cases hu : unknownKey ["result", "factory_id", "limit"] args with
      | some kv => exact ⟨"unexpected field " ++ kv.1, by simp only [InspectionFilter.validate, hu]⟩
      | none =>
        simp only [InspectionFilter.validate, hu]
        apply isErr_bind_all; intro res
        apply isErr_bind_all; intro fid
        rw [hlim]
        exact ⟨_, rfl⟩
    · cases hu : unknownKey ["machine_id", "maintenance_type", "limit"] args with
      | some kv => exact ⟨"unexpected field " ++ kv.1, by simp only [MaintenanceFilter.validate, hu]⟩
      | none =>
        simp only [MaintenanceFilter.validate, hu]
        apply isErr_bind_all; intro mid
        apply isErr_bind_all; intro mt
        rw [hlim]
        exact ⟨_, rfl⟩
  · intro args f hok
    cases hu : unknownKey ["status", "priority", "factory_id", "limit"] args with
    | some kv =>
      simp only [WorkOrderFilter.validate, hu] at hok
      exact absurd hok (by simp)
    | none =>
      simp only [WorkOrderFilter.validate, hu] at hok
      obtain ⟨st, h1, hok⟩ := exceptBind_ok _ _ _ hok
      obtain ⟨pr, h2, hok⟩ := exceptBind_ok _ _ _ hok
      obtain ⟨fid, h3, hok⟩ := exceptBind_ok _ _ _ hok
      obtain ⟨lim, h4, hok⟩ := exceptBind_ok _ _ _ hok
      obtain rfl : f = ⟨st, pr, fid, lim⟩ := (Except.ok.inj hok).symm
      refine ⟨fun hlk => ?_, fun hsk => ?_, fun hpk => ?_, fun hfk => ?_⟩
      · have hc : parseLimitField args = .ok 20 := by
          simp only [parseLimitField, hlk]
        exact (Except.ok.inj (hc.symm.trans h4)).symm
      · have hc : parseOptStrField args "status" = .ok none := by
          simp only [parseOptStrField, hsk]
        exact (Except.ok.inj (hc.symm.trans h1)).symm
      · have hc : parseOptStrField args "priority" = .ok none := by
          simp only [parseOptStrField, hpk]
        exact (Except.ok.inj (hc.symm.trans h2)).symm
      · have hc : parseOptIntField args "factory_id" = .ok none := by
          simp only [parseOptIntField, hfk]
        exact (Except.ok.inj (hc.symm.trans h3)).symm
  · intro args f hok
    cases hu : unknownKey ["factory_id"] args with
    | some kv =>
      simp only [FactoryFilter.validate, hu] at hok
      exact absurd hok (by simp)
    | none =>
      simp only [FactoryFilter.validate, hu] at hok
      obtain ⟨fid, h1, hok⟩ := exceptBind_ok _ _ _ hok
      obtain rfl : f = ⟨fid⟩ := (Except.ok.inj hok).symm
      intro hfk
      have hc : parseOptIntField args "factory_id" = .ok none := by
        simp only [parseOptIntField, hfk]
      exact (Except.ok.inj (hc.symm.trans h1)).symm
  · intro args f hok
    cases hu : unknownKey ["status", "factory_id"] args with
    | some kv =>
      simp only [MachineFilter.validate, hu] at hok
      exact absurd hok (by simp)
    | none =>
      simp only [MachineFilter.validate, hu] at hok
      obtain ⟨st, h1, hok⟩ := exceptBind_ok _ _ _ hok
      obtain ⟨fid, h2, hok⟩ := exceptBind_ok _ _ _ hok
      obtain rfl : f = ⟨st, fid⟩ := (Except.ok.inj hok).symm
      refine ⟨fun hsk => ?_, fun hfk => ?_⟩
      · have hc : parseOptStrField args "status" = .ok none := by
          simp only [parseOptStrField, hsk]
        exact (Except.ok.inj (hc.symm.trans h1)).symm
      · have hc : parseOptIntField args "factory_id" = .ok none := by
          simp only [parseOptIntField, hfk]
        exact (Except.ok.inj (hc.symm.trans h2)).symm
  · intro args f hok
    cases hu : unknownKey ["result", "factory_id", "limit"] args with
    | some kv =>
      simp only [InspectionFilter.validate, hu] at hok
      exact absurd hok (by simp)
    | none =>
      simp only [InspectionFilter.validate, hu] at hok
      obtain ⟨res, h1, hok⟩ := exceptBind_ok _ _ _ hok
      obtain ⟨fid, h2, hok⟩ := exceptBind_ok _ _ _ hok
      obtain ⟨lim, h3, hok⟩ := exceptBind_ok _ _ _ hok
      obtain rfl : f = ⟨res, fid, lim⟩ := (Except.ok.inj hok).symm
      refine ⟨fun hlk => ?_, fun hrk => ?_, fun hfk => ?_⟩
      · have hc : parseLimitField args = .ok 20 := by
          simp only [parseLimitField, hlk]
        exact (Except.ok.inj (hc.symm.trans h3)).symm
      · have hc : parseOptStrField args "result" = .ok none := by
          simp only [parseOptStrField, hrk]
        exact (Except.ok.inj (hc.symm.trans h1)).symm
      · have hc : parseOptIntField args "factory_id" = .ok none := by
          simp only [parseOptIntField, hfk]
        exact (Except.ok.inj (hc.symm.trans h2)).symm
  · intro args f hok
    cases hu : unknownKey ["machine_id", "maintenance_type", "limit"] args with
    | some kv =>
      simp only [MaintenanceFilter.validate, hu] at hok
      exact absurd hok (by simp)
    | none =>
      simp only [MaintenanceFilter.validate, hu] at hok
      obtain ⟨mid, h1, hok⟩ := exceptBind_ok _ _ _ hok
      obtain ⟨mt, h2, hok⟩ := exceptBind_ok _ _ _ hok
      obtain ⟨lim, h3, hok⟩ := exceptBind_ok _ _ _ hok
      obtain rfl : f = ⟨mid, mt, lim⟩ := (Except.ok.inj hok).symm
      refine ⟨fun hlk => ?_, fun hmk => ?_, fun htk => ?_⟩
      · have hc : parseLimitField args = .ok 20 := by
          simp only [parseLimitField, hlk]
        exact (Except.ok.inj (hc.symm.trans h3)).symm
      · have hc : parseOptIntField args "machine_id" = .ok none := by
          simp only [parseOptIntField, hmk]
        exact (Except.ok.inj (hc.symm.trans h1)).symm
      · have hc : parseOptStrField args "maintenance_type" = .ok none := by
          simp only [parseOptStrField, htk]
        exact (Except.ok.inj (hc.symm.trans h2)).symm
  · intro db args k v hmem hk
    obtain ⟨kv, hkv⟩ := unknownKey_some _ _ _ _ hmem hk
    refine ⟨"unexpected field " ++ kv.1, ?_, fun db2 => ?_⟩
    · simp only [getWorkOrdersTool, WorkOrderFilter.validate, hkv, Except.map]
    · simp only [getWorkOrdersTool, WorkOrderFilter.validate, hkv, Except.map]

/-- Witness for C7 at concrete argument objects: an unknown field and an
out-of-range limit are both rejected. -/
theorem c7_parameter_models_witness :
    isErr (WorkOrderFilter.validate [("bogus", JVal.jint 1)]) ∧
      isErr (WorkOrderFilter.validate [("limit", JVal.jint 500)]) :=
  ⟨c7_parameter_models.2.2.1 [("bogus", JVal.jint 1)] "bogus" (JVal.jint 1)
      (by decide) (by decide),
   (c7_parameter_models.2.2.2.2.2.1 [("limit", JVal.jint 500)] 500
      (by decide) (Or.inr (by omega))).1⟩

/-! ## Claim C8 -/

/-- The purchase-order invariant established by the seed generator (claim
C6): `actual_delivery` present exactly for delivered orders, whose
`expected_delivery` is present too. -/
def POInvariant (db : DB) : Prop :=
  ∀ po ∈ db.purchase_orders,
    (po.status ≠ "delivered" → po.actual_delivery = none) ∧
    (po.status = "delivered" →
      po.actual_delivery ≠ none ∧ po.expected_delivery ≠ none)

instance (db : DB) : Decidable (POInvariant db) :=
  inferInstanceAs (Decidable (∀ po ∈ db.purchase_orders, (_ → _) ∧ (_ → _ ∧ _)))

/-- The day delays of a supplier's delivered purchase orders having both
dates present — the aggregation set named by the claim. -/
def deliveredDeltas (db : DB) (s : Supplier) : List Int :=
  (db.purchase_orders.filter (fun po => po.supplier_id == s.id)).filterMap
    (fun po =>
      if po.status = "delivered" then
        match po.actual_delivery, po.expected_delivery with
        | some a, some e => some (a - e)
        | _, _ => none
      else none)

/-- Claim C8 as stated: `avg_delay_days` equals the exact mean of the
delays over delivered orders with both dates, null when there are none. -/
def c8ExactAvg (db : DB) : Prop :=
  ∀ s ∈ db.suppliers,
    (supplierRow db s).avg_delay_days =
      (if (deliveredDeltas db s).isEmpty then none
       else some (mkRat (deliveredDeltas db s).sum (deliveredDeltas db s).length))

def sup8 : Supplier := ⟨1, "Sup Eight", "Japan", "po@sup.jp", 20, 8⟩

def po8a : PurchaseOrder := ⟨1, 1, 1, 100, 50, -40, some 10, some 10, "delivered"⟩

def po8b : PurchaseOrder := ⟨2, 1, 1, 100, 50, -40, some 10, some 10, "delivered"⟩

def po8c : PurchaseOrder := ⟨3, 1, 1, 100, 50, -40, some 10, some 11, "delivered"⟩

/-- A seed-invariant database whose single supplier has three delivered
orders with delays 0, 0 and 1 days: the mean is 1/3, which `ROUND(..., 1)`
turns into 3/10. -/
def cdb8 : DB :=
  { emptyDB with suppliers := [sup8], purchase_orders := [po8a, po8b, po8c] }

/-- Counterexample to claim C8 as stated: `cdb8` satisfies the seed
invariants, yet the reported `avg_delay_days` is the rounded value 3/10,
not the exact mean 1/3 — the code applies `ROUND(AVG(...), 1)`. -/
theorem c8_counterexample : POInvariant cdb8 ∧ ¬ c8ExactAvg cdb8 := by
  refine ⟨by decide, fun h => ?_⟩
  have h2 := h sup8 (by decide)
  revert h2
  decide

/-- Claim C8 (amended): on every database satisfying the seed's
purchase-order invariant, each supplier's row appears in the
`supplier_performance` output and its `avg_delay_days` is the mean delay
over that supplier's delivered orders with both dates present — rounded to
one decimal place — and null when there is no such order. -/
theorem c8_supplier_avg_delay (db : DB) (hinv : POInvariant db) :
    ∀ s ∈ db.suppliers,
      supplierRow db s ∈ supplierPerformanceRows db ∧
      (supplierRow db s).avg_delay_days =
        (if (deliveredDeltas db s).isEmpty then none
         else some (round1 (qDiv (((deliveredDeltas db s).sum : Int) : Rat)
            (((deliveredDeltas db s).length : Nat) : Rat)))) := by
  intro s hs
  constructor
  · simp only [supplierPerformanceRows]
    exact (List.perm_insertionSort supRelRel _).mem_iff.mpr
      (List.mem_map_of_mem _ hs)
  · have hdel : bothDatesDeltas db s = deliveredDeltas db s := by
      rw [bothDatesDeltas, deliveredDeltas]
      apply List.filterMap_congr
      intro po hpo
      rw [List.mem_filter] at hpo
      have hinvpo := hinv po hpo.1
      by_cases hd : po.status = "delivered"
      · rw [if_pos hd]
      · rw [if_neg hd, hinvpo.1 hd]
    show (if (bothDatesDeltas db s).isEmpty then none
        else some (round1 (qDiv (((bothDatesDeltas db s).sum : Int) : Rat)
          (((bothDatesDeltas db s).length : Nat) : Rat)))) = _
    rw [hdel]

/-- Witness for C8 (amended) at the concrete database `cdb8`. -/
theorem c8_supplier_avg_delay_witness :
    supplierRow cdb8 sup8 ∈ supplierPerformanceRows cdb8 ∧
    (supplierRow cdb8 sup8).avg_delay_days =
      (if (deliveredDeltas cdb8 sup8).isEmpty then none
       else some (round1 (qDiv (((deliveredDeltas cdb8 sup8).sum : Int) : Rat)
          (((deliveredDeltas cdb8 sup8).length : Nat) : Rat)))) :=
  c8_supplier_avg_delay cdb8 (by decide) sup8 (by decide)

/-! ## Claim C4 -/

theorem insertAll_cons {α : Type} (key : α → Int) (tbl : List α) (r : α)
    (rest : List α) :
    insertAll key tbl (r :: rest) = insertAll key (insertIfAbsent key tbl r) rest :=
  rfl

/-- `INSERT OR IGNORE` of key-distinct rows appends exactly the rows whose
key is not yet present. -/
theorem insertAll_eq_append_filter {α : Type} (key : α → Int) (tbl rows : List α)
    (h : (rows.map key).Nodup) :
    insertAll key tbl rows =
      tbl ++ rows.filter (fun r => !(tbl.any (fun x => key x == key r))) := by
  induction rows generalizing tbl with
  | nil => simp [insertAll]
  | cons r rest ih =>
    rw [List.map_cons, List.nodup_cons] at h
    obtain ⟨hr, hrest⟩ := h
    rw [insertAll_cons]
    by_cases hc : tbl.any (fun x => key x == key r) = true
    · have hins : insertIfAbsent key tbl r = tbl := by
        rw [insertIfAbsent, if_pos hc]
      rw [hins, ih _ hrest]
      congr 1
      rw [List.filter_cons]
      simp [hc]
    · have hcf : tbl.any (fun x => key x == key r) = false := by
        revert hc; cases tbl.any (fun x => key x == key r) <;> simp
    -- the fresh row is appended and later rows see the same key set
      have hins : insertIfAbsent key tbl r = tbl ++ [r] := by
        rw [insertIfAbsent, if_neg (by simp [hcf])]
      rw [hins, ih _ hrest]
      have hfil : rest.filter (fun x => !((tbl ++ [r]).any (fun y => key y == key x)))
          = rest.filter (fun x => !(tbl.any (fun y => key y == key x))) := by
        apply List.filter_congr
        intro x hx
        rw [List.any_append]
        have hne : (key r == key x) = false := by
          rw [beq_eq_false_iff_ne]
          intro he
          exact hr (by rw [he]; exact List.mem_map_of_mem _ hx)
        simp [hne]
      rw [hfil, List.filter_cons]
      simp [hcf, List.append_assoc]

/-- When every generated key is already present, `INSERT OR IGNORE` leaves
the table unchanged. -/
theorem insertAll_no_new {α : Type} (key : α → Int) (tbl rows : List α)
    (h : ∀ r ∈ rows, ∃ x ∈ tbl, key x = key r) :
    insertAll key tbl rows = tbl := by
  induction rows with
  | nil => rfl
  | cons r rest ih =>
    obtain ⟨x, hx, hkx⟩ := h r (by simp)
    have hany : tbl.any (fun y => key y == key r) = true := by
      rw [List.any_eq_true]
      exact ⟨x, hx, by simp [hkx]⟩
    have hins : insertIfAbsent key tbl r = tbl := by
      rw [insertIfAbsent, if_pos hany]
    rw [insertAll_cons, hins]
    exact ih (fun r2 hr2 => h r2 (by simp [hr2]))

/-- Seeding an empty table inserts every generated row. -/
theorem insertAll_nil {α : Type} (key : α → Int) (rows : List α)
    (h : (rows.map key).Nodup) : insertAll key [] rows = rows := by
  rw [insertAll_eq_append_filter key [] rows h]
  simp

/-- Re-inserting the very same rows changes nothing. -/
theorem insertAll_self {α : Type} (key : α → Int) (tbl : List α) :
    insertAll key tbl tbl = tbl :=
  insertAll_no_new _ _ _ (fun r hr => ⟨r, hr, rfl⟩)

/-- A second run whose generator spans the same key sequence inserts
nothing. -/
theorem insertAll_regen {α : Type} (key : α → Int) (g1 g2 : Nat → α) (n : Nat)
    (hk : ∀ k, key (g1 k) = key (g2 k)) :
    insertAll key ((List.range n).map g1) ((List.range n).map g2) =
      (List.range n).map g1 :=
  insertAll_no_new _ _ _ (by
    intro r hr
    rw [List.mem_map] at hr
    obtain ⟨k, hk2, rfl⟩ := hr
    exact ⟨g1 k, List.mem_map_of_mem _ hk2, hk k⟩)

/-- The 1-based id-assigning generators produce pairwise distinct keys. -/
theorem nodup_map_key {α : Type} (key : α → Int) (g : Nat → α) (n : Nat)
    (hk : ∀ k, key (g k) = ((k + 1 : Nat) : Int)) :
    (((List.range n).map g).map key).Nodup := by
  rw [List.map_map]
  have hfun : (key ∘ g) = fun k => ((k + 1 : Nat) : Int) := funext hk
  rw [hfun]
  apply List.Nodup.map ?_ (List.nodup_range n)
  intro a b hab
  have hab2 : ((a + 1 : Nat) : Int) = ((b + 1 : Nat) : Int) := hab
  omega

theorem wopRowsFor_map_id (ch : SeedChoices) (woId ctr cnt : Nat) :
    (wopRowsFor ch woId ctr cnt).map WorkOrderPart.id =
      (List.range' ctr cnt).map (fun n => ((n : Nat) : Int)) := by
  rw [wopRowsFor, List.range'_eq_map_range, List.map_map, List.map_map]
  apply List.map_congr_left
  intro a _
  rfl

/-- The `work_order_parts` generation assigns the consecutive ids
`ctr, ctr+1, ...`. -/
theorem genWOPGo_map_id (ch : SeedChoices) (rem : Nat) :
    ∀ woId ctr : Nat,
      (genWOPGo ch woId ctr rem).map WorkOrderPart.id =
        (List.range' ctr (wopTotal ch woId rem)).map (fun n => ((n : Nat) : Int)) := by
  induction rem with
  | zero => intro woId ctr; rfl
  | succ r ih =>
    intro woId ctr
    have hgo : genWOPGo ch woId ctr (r + 1) =
        wopRowsFor ch woId ctr (1 + ch.wopCnt woId % 3) ++
          genWOPGo ch (woId + 1) (ctr + (1 + ch.wopCnt woId % 3)) r := rfl
    have htot : wopTotal ch woId (r + 1) =
        (1 + ch.wopCnt woId % 3) + wopTotal ch (woId + 1) r := rfl
    rw [hgo, htot, List.map_append, wopRowsFor_map_id, ih]
    rw [← List.map_append]
    congr 1
    have hap := List.range'_append ctr (1 + ch.wopCnt woId % 3)
      (wopTotal ch (woId + 1) r) 1
    simp only [one_mul] at hap
    rw [Nat.add_comm (1 + ch.wopCnt woId % 3) (wopTotal ch (woId + 1) r), ← hap]

theorem genWOP_map_id (ch : SeedChoices) :
    (genWOP ch).map WorkOrderPart.id =
      (List.range' 1 (wopTotal ch 1 200)).map (fun n => ((n : Nat) : Int)) :=
  genWOPGo_map_id ch 200 1 1

theorem genWOP_nodup_ids (ch : SeedChoices) :
    ((genWOP ch).map WorkOrderPart.id).Nodup := by
  rw [genWOP_map_id]
  apply List.Nodup.map ?_ (List.nodup_range' _ _)
  intro a b hab
  have hab2 : ((a : Nat) : Int) = ((b : Nat) : Int) := hab
  omega

attribute [irreducible] insertIfAbsent insertAll

/-- Projection equations of one seed run (definitional). -/
theorem seedDB_factories (ch : SeedChoices) (db : DB) :
    (seedDB ch db).factories = insertAll Factory.id db.factories seedFactories := rfl

theorem seedDB_production_lines (ch : SeedChoices) (db : DB) :
    (seedDB ch db).production_lines =
      insertAll ProductionLine.id db.production_lines seedLines := rfl

theorem seedDB_machines (ch : SeedChoices) (db : DB) :
    (seedDB ch db).machines = insertAll Machine.id db.machines seedMachines := rfl

theorem seedDB_employees (ch : SeedChoices) (db : DB) :
    (seedDB ch db).employees =
      insertAll Employee.id db.employees (genEmployees ch) := rfl

theorem seedDB_suppliers (ch : SeedChoices) (db : DB) :
    (seedDB ch db).suppliers = insertAll Supplier.id db.suppliers seedSuppliers := rfl

theorem seedDB_parts (ch : SeedChoices) (db : DB) :
    (seedDB ch db).parts = insertAll Part.id db.parts seedParts := rfl

theorem seedDB_purchase_orders (ch : SeedChoices) (db : DB) :
    (seedDB ch db).purchase_orders =
      insertAll PurchaseOrder.id db.purchase_orders (genPurchaseOrders ch) := rfl

theorem seedDB_work_orders (ch : SeedChoices) (db : DB) :
    (seedDB ch db).work_orders =
      insertAll WorkOrder.id db.work_orders (genWorkOrders ch) := rfl

theorem seedDB_work_order_parts (ch : SeedChoices) (db : DB) :
    (seedDB ch db).work_order_parts =
      insertAll WorkOrderPart.id db.work_order_parts (genWOP ch) := rfl

theorem seedDB_quality_inspections (ch : SeedChoices) (db : DB) :
    (seedDB ch db).quality_inspections =
      insertAll QualityInspection.id db.quality_inspections (genInspections ch) := rfl

theorem seedDB_maintenance_logs (ch : SeedChoices) (db : DB) :
    (seedDB ch db).maintenance_logs =
      insertAll MaintenanceLog.id db.maintenance_logs (genMaintLogs ch) := rfl

/-- Claim C4 (amended): re-running the seed against an already-populated
store leaves ten of the eleven tables unchanged — every insertion is
`INSERT OR IGNORE` keyed by the primary key and the generated key sets of
those tables are fixed — but `work_order_parts`, whose row count is drawn
at random per work order, can gain rows with fresh ids when the second run
draws more rows than the first; it is only ever extended, never rewritten. -/
theorem c4_seed_rerun (ch1 ch2 : SeedChoices) :
    (seedDB ch2 (seedDB ch1 emptyDB)).factories = (seedDB ch1 emptyDB).factories ∧
    (seedDB ch2 (seedDB ch1 emptyDB)).production_lines = (seedDB ch1 emptyDB).production_lines ∧
    (seedDB ch2 (seedDB ch1 emptyDB)).machines = (seedDB ch1 emptyDB).machines ∧
    (seedDB ch2 (seedDB ch1 emptyDB)).employees = (seedDB ch1 emptyDB).employees ∧
    (seedDB ch2 (seedDB ch1 emptyDB)).suppliers = (seedDB ch1 emptyDB).suppliers ∧
    (seedDB ch2 (seedDB ch1 emptyDB)).parts = (seedDB ch1 emptyDB).parts ∧
    (seedDB ch2 (seedDB ch1 emptyDB)).purchase_orders = (seedDB ch1 emptyDB).purchase_orders ∧
    (seedDB ch2 (seedDB ch1 emptyDB)).work_orders = (seedDB ch1 emptyDB).work_orders ∧
    (seedDB ch2 (seedDB ch1 emptyDB)).quality_inspections = (seedDB ch1 emptyDB).quality_inspections ∧
    (seedDB ch2 (seedDB ch1 emptyDB)).maintenance_logs = (seedDB ch1 emptyDB).maintenance_logs ∧
    ∃ t, (seedDB ch2 (seedDB ch1 emptyDB)).work_order_parts =
      (seedDB ch1 emptyDB).work_order_parts ++ t := by
  refine ⟨?_, ?_, ?_, ?_, ?_, ?_, ?_, ?_, ?_, ?_, ?_⟩
  · rw [seedDB_factories ch2, seedDB_factories ch1,
      show emptyDB.factories = ([] : List Factory) from rfl,
      insertAll_nil _ _ (by decide), insertAll_self]
  · rw [seedDB_production_lines ch2, seedDB_production_lines ch1,
      show emptyDB.production_lines = ([] : List ProductionLine) from rfl,
      insertAll_nil _ _ (by decide), insertAll_self]
  · rw [seedDB_machines ch2, seedDB_machines ch1,
      show emptyDB.machines = ([] : List Machine) from rfl,
      insertAll_nil _ _ (by decide), insertAll_self]
  · rw [seedDB_employees ch2, seedDB_employees ch1,
      show emptyDB.employees = ([] : List Employee) from rfl,
      insertAll_nil _ _ (by
        simp only [genEmployees]
        exact nodup_map_key _ _ _ (fun k => rfl))]
    simp only [genEmployees]
    exact insertAll_regen _ _ _ 25 (fun k => rfl)
  · rw [seedDB_suppliers ch2, seedDB_suppliers ch1,
      show emptyDB.suppliers = ([] : List Supplier) from rfl,
      insertAll_nil _ _ (by decide), insertAll_self]
  · rw [seedDB_parts ch2, seedDB_parts ch1,
      show emptyDB.parts = ([] : List Part) from rfl,
      insertAll_nil _ _ (by decide), insertAll_self]
  · rw [seedDB_purchase_orders ch2, seedDB_purchase_orders ch1,
      show emptyDB.purchase_orders = ([] : List PurchaseOrder) from rfl,
      insertAll_nil _ _ (by
        simp only [genPurchaseOrders]
        exact nodup_map_key _ _ _ (fun k => rfl))]
    simp only [genPurchaseOrders]
    exact insertAll_regen _ _ _ 60 (fun k => rfl)
  · rw [seedDB_work_orders ch2, seedDB_work_orders ch1,
      show emptyDB.work_orders = ([] : List WorkOrder) from rfl,
      insertAll_nil _ _ (by
        simp only [genWorkOrders]
        exact nodup_map_key _ _ _ (fun k => rfl))]
    simp only [genWorkOrders]
    exact insertAll_regen _ _ _ 200 (fun k => rfl)
  · rw [seedDB_quality_inspections ch2, seedDB_quality_inspections ch1,
      show emptyDB.quality_inspections = ([] : List QualityInspection) from rfl,
      insertAll_nil _ _ (by
        simp only [genInspections]
        exact nodup_map_key _ _ _ (fun k => rfl))]
    simp only [genInspections]
    exact insertAll_regen _ _ _ 500 (fun k => rfl)
  · rw [seedDB_maintenance_logs ch2, seedDB_maintenance_logs ch1,
      show emptyDB.maintenance_logs = ([] : List MaintenanceLog) from rfl,
      insertAll_nil _ _ (by
        simp only [genMaintLogs]
        exact nodup_map_key _ _ _ (fun k => rfl))]
    simp only [genMaintLogs]
    exact insertAll_regen _ _ _ 150 (fun k => rfl)
  · rw [seedDB_work_order_parts ch2, seedDB_work_order_parts ch1,
      show emptyDB.work_order_parts = ([] : List WorkOrderPart) from rfl,
      insertAll_nil _ _ (genWOP_nodup_ids ch1)]
    exact ⟨_, insertAll_eq_append_filter _ _ _ (genWOP_nodup_ids ch2)⟩

/-- Draw streams for the second run that give the first work order two
part rows instead of one, so that 201 rows are generated. -/
def ch2c : SeedChoices :=
  { chZero with wopCnt := fun w => if w = 1 then 1 else 0 }

set_option maxRecDepth 4000 in
/-- Counterexample to claim C4 as stated: the run with `chZero` generates
200 `work_order_parts` rows (ids 1..200); re-running with `ch2c` generates
201 rows (ids 1..201), and `INSERT OR IGNORE` inserts the fresh row 201 —
the table's row set changes. -/
theorem c4_counterexample :
    seedDB ch2c (seedDB chZero emptyDB) ≠ seedDB chZero emptyDB := by
  intro h
  have hw := congrArg DB.work_order_parts h
  have hd1 : (seedDB chZero emptyDB).work_order_parts = genWOP chZero := by
    rw [seedDB_work_order_parts,
      show emptyDB.work_order_parts = ([] : List WorkOrderPart) from rfl]
    exact insertAll_nil _ _ (genWOP_nodup_ids chZero)
  have hd2 : (seedDB ch2c (seedDB chZero emptyDB)).work_order_parts =
      genWOP chZero ++ (genWOP ch2c).filter
        (fun r => !((genWOP chZero).any
          (fun x => WorkOrderPart.id x == WorkOrderPart.id r))) := by
    rw [seedDB_work_order_parts, hd1]
    exact insertAll_eq_append_filter _ _ _ (genWOP_nodup_ids ch2c)
  rw [hd2, hd1] at hw
  have hfil : (genWOP ch2c).filter
      (fun r => !((genWOP chZero).any
        (fun x => WorkOrderPart.id x == WorkOrderPart.id r))) = [] := by
    have hlen := congrArg List.length hw
    rw [List.length_append] at hlen
    have hz : ((genWOP ch2c).filter
        (fun r => !((genWOP chZero).any
          (fun x => WorkOrderPart.id x == WorkOrderPart.id r)))).length = 0 := by
      omega
    exact List.length_eq_zero.mp hz
  have htot2 : wopTotal ch2c 1 200 = 201 := by decide
  have h201 : ((201 : Nat) : Int) ∈ (genWOP ch2c).map WorkOrderPart.id := by
    rw [genWOP_map_id, htot2]
    apply List.mem_map_of_mem
    rw [List.mem_range']
    exact ⟨200, by omega, by omega⟩
  obtain ⟨r201, hr201mem, hr201id⟩ := List.mem_map.mp h201
  have hp := List.filter_eq_nil_iff.mp hfil r201 hr201mem
  have hany : (genWOP chZero).any
      (fun x => WorkOrderPart.id x == WorkOrderPart.id r201) = true := by
    revert hp
    cases (genWOP chZero).any (fun x => WorkOrderPart.id x == WorkOrderPart.id r201) <;>
      simp
  rw [List.any_eq_true] at hany
  obtain ⟨x, hxmem, hxid⟩ := hany
  have hxid2 : WorkOrderPart.id x = ((201 : Nat) : Int) := by
    rw [beq_iff_eq] at hxid
    rw [hxid, hr201id]
  have hxin : WorkOrderPart.id x ∈ (genWOP chZero).map WorkOrderPart.id :=
    List.mem_map_of_mem _ hxmem
  have htot0 : wopTotal chZero 1 200 = 200 := by decide
  rw [genWOP_map_id, htot0, hxid2, List.mem_map] at hxin
  obtain ⟨n, hn, hcast⟩ := hxin
  rw [List.mem_range'] at hn
  obtain ⟨i, hi, hni⟩ := hn
  omega

end Mfg
